import Mathlib

/-!
Shallow embedding of the image-projection renderable manager
(`Images` in `src/packages/studio-base/.../PlaybackSpeedControls.tsx`,
second document in the file, lines 109-536) together with its helper
functions `tryCreateMesh`, `rebuildMaterial`, `createMaterial`,
`createGeometry`, `multiplyScalar`, `cameraInfoTopicMatches` and
`autoSelectCameraInfoTopic`.

Conventions used throughout:
- JavaScript strings are Lean `String`s; `topic.split("/")` is modelled by
  `splitSlash` (structural recursion so that the kernel can evaluate it),
  and the default `Array.prototype.sort()` comparison (lexicographic by
  UTF-16 code units) by `jsStringLe`.
- Numbers are `ℚ` (the claims under scrutiny are structural, not about
  float rounding).
- `undefined`-able fields become `Option`s.
- The mutations the manager performs on the external world (emitting
  settings-tree events, reporting/clearing layer errors, dispatching an
  asynchronous bitmap decode, disposing/creating GPU resources,
  attaching/detaching meshes, invoking the transform resolver) are recorded
  as an explicit `Effect` trace; each constructor corresponds to a specific
  call site in the source.
- A `throw` is modelled by an `Option String` in the result ("thrown"); the
  state mutations performed before the throw are kept, exactly as in the
  JavaScript original, where the exception propagates out of a method whose
  earlier in-place mutations persist.
-/

namespace StudioImages

/-- One segment split: models `s.split("/")` on the character list.
Matches JavaScript semantics: `"" ↦ [""]`, `"a//b" ↦ ["a","","b"]`,
`"a/" ↦ ["a",""]`. -/
def splitCharsOn (sep : Char) : List Char → List (List Char)
  | [] => [[]]
  | c :: rest =>
    let tail := splitCharsOn sep rest
    if c = sep then [] :: tail
    else
      match tail with
      | [] => [[c]]
      | seg :: segs => (c :: seg) :: segs

/-- `topic.split("/")` from the source, as a Lean function on `String`. -/
def splitSlash (s : String) : List String :=
  (splitCharsOn '/' s.data).map (fun cs => String.mk cs)

/-- Lexicographic comparison of character lists by code point, the order
used by JavaScript's default `Array.prototype.sort()` on strings. -/
def charListLe : List Char → List Char → Bool
  | [], _ => true
  | _ :: _, [] => false
  | a :: as, b :: bs =>
    if a.toNat < b.toNat then true
    else if b.toNat < a.toNat then false
    else charListLe as bs

/-- JavaScript default string ordering (`candidates.sort()`): lexicographic
by code unit. -/
def jsStringLe (a b : String) : Bool :=
  charListLe a.data b.data

/-- `candidates.sort()` from `autoSelectCameraInfoTopic`: sorting in the
JavaScript default string order. -/
def sortStrings (l : List String) : List String :=
  l.insertionSort (fun a b => jsStringLe a b = true)

/-- Source lines 507-521 (`cameraInfoTopicMatches`): a CameraInfo topic
matches an image topic when both split on `/` into the same number of
segments and all segments but the last agree. -/
def cameraInfoTopicMatches (topic cameraInfoTopic : String) : Bool :=
  let imageParts := splitSlash topic
  let infoParts := splitSlash cameraInfoTopic
  if imageParts.length ≠ infoParts.length then false
  else
    (List.range (imageParts.length - 1)).all
      (fun i => imageParts.getD i "" = infoParts.getD i "")

/-- Source lines 523-536 (`autoSelectCameraInfoTopic`): collect the known
CameraInfo topics that match the image topic, sort them, and return the
first (`candidates[0]`, which is `undefined` when no candidate matches).
The source writes the result into `output.cameraInfoTopic`; the callers
below perform that assignment. -/
def autoSelectCameraInfoTopic (imageTopic : String) (cameraInfoTopics : List String) :
    Option String :=
  let candidates := cameraInfoTopics.filter (fun c => cameraInfoTopicMatches imageTopic c)
  (sortStrings candidates).head?

/-! ## Data model -/

structure Pixel where
  x : ℚ
  y : ℚ
deriving DecidableEq, Repr

/-- A 3D point (`MutablePoint` / THREE vector with rational coordinates). -/
structure Point3 where
  x : ℚ
  y : ℚ
  z : ℚ
deriving DecidableEq, Repr

/-- A pose: position plus orientation quaternion. -/
structure Pose where
  px : ℚ
  py : ℚ
  pz : ℚ
  qx : ℚ
  qy : ℚ
  qz : ℚ
  qw : ℚ
deriving DecidableEq, Repr

/-- `makePose()` from `../transforms/geometry` (a collaborator outside this
excerpt): the identity pose. -/
def makePose : Pose := ⟨0, 0, 0, 0, 0, 0, 1⟩

structure RosTime where
  sec : ℕ
  nsec : ℕ
deriving DecidableEq, Repr

/-- `rosTimeToNanoSec` from `../ros` (a collaborator outside this excerpt):
the standard ROS seconds/nanoseconds to nanoseconds conversion. -/
def rosTimeToNanoSec (t : RosTime) : ℕ := t.sec * 1000000000 + t.nsec

structure Header where
  frame_id : String
  stamp : RosTime
deriving DecidableEq, Repr

/-- The `Image | CompressedImage` union. A raw `Image` carries pixel data
with an encoding; a `CompressedImage` carries a container `format` (e.g.
"png") and compressed bytes. The source discriminates by the truthiness of
the `format` property (line 347). -/
inductive ImageMsg
  | raw (header : Header) (width height : ℕ) (encoding : String) (data : List ℕ)
  | compressed (header : Header) (format : String) (data : List ℕ)
deriving DecidableEq, Repr

def ImageMsg.header : ImageMsg → Header
  | .raw h _ _ _ _ => h
  | .compressed h _ _ => h

/-- Truthiness of `(image as Partial<CompressedImage>).format`: present and
a non-empty string. -/
def ImageMsg.formatTruthy : ImageMsg → Bool
  | .raw _ _ _ _ _ => false
  | .compressed _ f _ => decide (f ≠ "")

/-- The message thrown at source line 387 for a message that fails the
truthy-`format` test: the raw fields are read off `image as Image`; a
compressed image with a falsy format has none of them (`undefined`). -/
def unhandledImageMessage : ImageMsg → String
  | .raw _ w h enc _ =>
    "Unhandled " ++ toString w ++ "x" ++ toString h ++ " " ++ enc ++ " image"
  | .compressed _ _ _ => "Unhandled undefinedxundefined undefined image"

structure Bitmap where
  width : ℕ
  height : ℕ
deriving DecidableEq, Repr

/-- A `THREE.CanvasTexture`; the filtering/wrapping/encoding parameters are
fixed at the single construction site, so only the mutable parts are kept. -/
structure Texture where
  image : Bitmap
  needsUpdate : Bool
deriving DecidableEq, Repr

structure Rgba where
  r : ℚ
  g : ℚ
  b : ℚ
  a : ℚ
deriving DecidableEq, Repr

/-- A `THREE.MeshBasicMaterial` as configured by `createMaterial`
(lines 428-444). -/
structure Material where
  name : String
  colorR : ℚ
  colorG : ℚ
  colorB : ℚ
  mapBitmap : Bitmap
  opacity : ℚ
  transparent : Bool
  depthWrite : Bool
  sideDouble : Bool
deriving DecidableEq, Repr

/-- A `THREE.PlaneGeometry` after `createGeometry` rewrote its position and
uv buffers: the vertex positions and uv coordinates, row by row. -/
structure PlaneGeometry where
  vertices : List Point3
  uvs : List (ℚ × ℚ)
deriving DecidableEq, Repr

structure Mesh where
  geometry : PlaneGeometry
  material : Material
deriving DecidableEq, Repr

/-- The `PinholeCameraModel` collaborator (outside this excerpt): pixel
dimensions plus the rectify / ray-projection capabilities, as abstract
functions. `rectifyPixel` and `projectPixelTo3dRay` write into out-vectors
in the source; here they return their result. -/
structure CameraModel where
  width : ℕ
  height : ℕ
  rectifyPixel : Pixel → Pixel
  projectPixelTo3dRay : Pixel → Point3

/-- `LayerSettingsImage` (from `../settings`). -/
structure LayerSettingsImage where
  visible : Bool
  cameraInfoTopic : Option String
  distance : ℚ
  color : String
deriving DecidableEq, Repr

def DEFAULT_DISTANCE : ℚ := 1

def DEFAULT_SETTINGS : LayerSettingsImage :=
  { visible := true, cameraInfoTopic := none, distance := DEFAULT_DISTANCE, color := "#ffffff" }

/-- `Partial<LayerSettingsImage>`: each field is either absent (the outer
`none`) or present; a present `cameraInfoTopic` can itself be `undefined`
(the inner `none`), which on spread still overrides the previous value. -/
structure SettingsPatch where
  visible : Option Bool
  cameraInfoTopic : Option (Option String)
  distance : Option ℚ
  color : Option String
deriving DecidableEq, Repr

def emptyPatch : SettingsPatch := ⟨none, none, none, none⟩

/-- The object spread `{ ...prevSettings, ...settings }` at line 309. -/
def mergeSettings (prev : LayerSettingsImage) (patch : SettingsPatch) : LayerSettingsImage :=
  { visible := patch.visible.getD prev.visible
  , cameraInfoTopic := patch.cameraInfoTopic.getD prev.cameraInfoTopic
  , distance := patch.distance.getD prev.distance
  , color := patch.color.getD prev.color }

/-- A full settings object used where the source passes
`renderable.userData.settings` as the `Partial<LayerSettingsImage>`
argument (lines 244, 254): every field is an own property. -/
def toPatch (s : LayerSettingsImage) : SettingsPatch :=
  ⟨some s.visible, some s.cameraInfoTopic, some s.distance, some s.color⟩

/-- `renderable.userData` of an `ImageRenderable` (lines 141-153), plus the
`visible` flag of the `THREE.Object3D` itself (written by `startFrame`). -/
structure RenderableData where
  topic : String
  settings : LayerSettingsImage
  image : ImageMsg
  pose : Pose
  srcTime : ℕ
  texture : Option Texture
  material : Option Material
  geometry : Option PlaneGeometry
  mesh : Option Mesh
  visible : Bool
deriving DecidableEq, Repr

def CREATE_BITMAP_ERR : String := "CreateBitmap"

/-- The `MISSING_TRANSFORM` error key imported from `./transforms`
(a collaborator outside this excerpt); only its value's distinctness from
`CREATE_BITMAP_ERR` matters. -/
def MISSING_TRANSFORM : String := "MissingTransform"

/-- Everything the manager consults on `this.renderer` and on collaborators:
the camera models known per CameraInfo topic
(`renderer.cameras.camerasByTopic.get(t)?.userData.cameraModel`), the two
frame ids, the transform resolver `updatePose` (returns the new pose on
success, `none` on failure), `stringToRgba` from `../color`, and
`missingTransformMessage` from `./transforms`. -/
structure Env where
  camerasByTopic : String → Option CameraModel
  renderFrameId : Option String
  fixedFrameId : Option String
  resolvePose : String → String → String → ℕ → ℕ → Option Pose
  stringToRgba : String → Rgba
  missingTransformMessage : String → String → String → String

/-- The observable actions the manager performs, one constructor per call
site: `updateRun t` marks entry into `_updateImageRenderable` for topic `t`;
`emitSettingsTree` is `renderer.emit("settingsTreeChange", {path})`;
`errorAdd`/`errorRemove`/`errorClear` are the `layerErrors` calls;
`decodeDispatch` is the `createBitmap(image)` promise dispatch;
`disposeTexture`/`disposeMaterial`/`disposeGeometry` are `.dispose()` calls;
`detachMesh`/`attachMesh` are `renderable.remove/add(mesh)`;
`createTextureEff`/`updateTextureEff` are the two texture paths of the
decode callback; `materialRebuilt t` marks a `rebuildMaterial` invocation;
`geometryBuilt t` marks a `createGeometry` invocation (line 337);
`resolveCall` is the `updatePose(...)` invocation with the frame and time
arguments actually passed. -/
inductive Effect
  | updateRun (topic : String)
  | emitSettingsTree (path : List String)
  | errorAdd (topic errorId message : String)
  | errorRemove (topic errorId : String)
  | errorClear (topic : String)
  | decodeDispatch (topic format : String) (data : List ℕ)
  | disposeTexture (topic : String)
  | disposeMaterial (topic : String)
  | disposeGeometry (topic : String)
  | detachMesh (topic : String)
  | attachMesh (topic : String)
  | createTextureEff (topic : String)
  | updateTextureEff (topic : String)
  | materialRebuilt (topic : String)
  | geometryBuilt (topic : String)
  | resolveCall (renderFrame fixedFrame frameId : String) (currentTime srcTime : ℕ)
deriving DecidableEq, Repr

/-- The manager's own state: the topic → renderable map (insertion-ordered,
like a JS `Map`), the accumulated CameraInfo topic set (insertion-ordered),
the child list of the `Images` group object, the group's visibility, and
the externally shared `renderer.config.topics` store the manager reads
defaults from and writes auto-selections back into. -/
structure ImagesState where
  imagesByTopic : List (String × RenderableData)
  cameraInfoTopics : List String
  childTopics : List String
  visible : Bool
  configTopics : List (String × SettingsPatch)
deriving Repr

def lookupTopic {α : Type} (m : List (String × α)) (topic : String) : Option α :=
  List.lookup topic m

def setTopic {α : Type} : List (String × α) → String → α → List (String × α)
  | [], t, v => [(t, v)]
  | (k, w) :: rest, t, v =>
    if k = t then (k, v) :: rest else (k, w) :: setTopic rest t v

/-- The result of an operation: the new state, the trace of observable
actions in program order, and the error thrown out of the call, if any
(state mutations made before the throw persist, as in the source). -/
structure StepResult where
  st : ImagesState
  effects : List Effect
  thrown : Option String
deriving Repr

/-! ## Geometry / material / mesh helpers (lines 400-505) -/

/-- `EPS` from line 464. -/
def EPS : ℚ := 1e-3

/-- `multiplyScalar` (lines 501-505). -/
def multiplyScalar (vec : Point3) (scalar : ℚ) : Point3 :=
  { x := vec.x * scalar, y := vec.y * scalar, z := vec.z * scalar }

/-- `createGeometry` (lines 446-499): a 1×1-segment plane whose position
buffer is rebuilt by rectifying and ray-projecting each grid pixel, scaling
by `depth` and lowering z by `EPS`, and whose uv buffer maps the grid
linearly to the unit square. -/
def createGeometry (cameraModel : CameraModel) (depth : ℚ) : PlaneGeometry :=
  let width := cameraModel.width
  let height := cameraModel.height
  let widthSegments : ℕ := 1
  let heightSegments : ℕ := 1
  let gridX := widthSegments
  let gridY := heightSegments
  let gridX1 := gridX + 1
  let gridY1 := gridY + 1
  let segment_width : ℚ := (width : ℚ) / (gridX : ℚ)
  let segment_height : ℚ := (height : ℚ) / (gridY : ℚ)
  let corner := fun (ix iy : ℕ) =>
    let pixel : Pixel := { x := (ix : ℚ) * segment_width, y := (iy : ℚ) * segment_height }
    let rectified := cameraModel.rectifyPixel pixel
    let ray := cameraModel.projectPixelTo3dRay rectified
    let p := multiplyScalar ray depth
    ({ x := p.x, y := p.y, z := p.z - EPS } : Point3)
  { vertices :=
      (List.range gridY1).flatMap
        (fun iy => (List.range gridX1).map (fun ix => corner ix iy))
  , uvs :=
      (List.range gridY1).flatMap
        (fun iy => (List.range gridX1).map
          (fun ix => (((ix : ℚ) / (gridX : ℚ)), ((iy : ℚ) / (gridY : ℚ)))))}

/-- `createMaterial` (lines 428-444). -/
def createMaterial (env : Env) (texture : Texture) (rd : RenderableData) : Material :=
  let rgba := env.stringToRgba rd.settings.color
  let transparent := decide (rgba.a < 1)
  { name := rd.topic ++ ":Material"
  , colorR := rgba.r
  , colorG := rgba.g
  , colorB := rgba.b
  , mapBitmap := texture.image
  , opacity := rgba.a
  , transparent := transparent
  , depthWrite := !transparent
  , sideDouble := true }

/-- `tryCreateMesh` (lines 400-407): when no mesh exists and both geometry
and material do, pair them into a mesh and attach it. -/
def tryCreateMesh (rd : RenderableData) : RenderableData × List Effect :=
  match rd.mesh, rd.geometry, rd.material with
  | none, some geometry, some material =>
    ({ rd with mesh := some { geometry := geometry, material := material } },
     [Effect.attachMesh rd.topic])
  | _, _, _ => (rd, [])

/-- `rebuildMaterial` (lines 409-420): dispose any previous material, build
a new one from the current texture if present, and detach the mesh. -/
def rebuildMaterial (env : Env) (rd : RenderableData) : RenderableData × List Effect :=
  let disposeEff := if rd.material.isSome then [Effect.disposeMaterial rd.topic] else []
  let newMaterial := rd.texture.map (fun t => createMaterial env t rd)
  let detachEff := if rd.mesh.isSome then [Effect.detachMesh rd.topic] else []
  ({ rd with material := newMaterial, mesh := none },
   [Effect.materialRebuilt rd.topic] ++ disposeEff ++ detachEff)

/-! ## `_updateImageRenderable` (lines 303-397) -/

structure UpdateResult where
  rd : RenderableData
  effects : List Effect
  thrown : Option String
deriving Repr

/-- Lines 318-326: dispose of the current geometry and detach the mesh
when the geometry-affecting settings changed. -/
def geometryDisposePhase (rd : RenderableData) (geometrySettingsEqual : Bool) :
    RenderableData × List Effect :=
  if !geometrySettingsEqual then
    ({ rd with geometry := none, mesh := none },
     (if rd.geometry.isSome then [Effect.disposeGeometry rd.topic] else []) ++
     (if rd.mesh.isSome then [Effect.detachMesh rd.topic] else []))
  else (rd, [])

/-- Lines 328-344: create the plane geometry if needed. Note the source
tests `settings.cameraInfoTopic` on the PATCH argument, not on the merged
settings, while the distance is read from the merged settings already
stored on the renderable. -/
def geometryBuildPhase (env : Env) (rd : RenderableData) (patch : SettingsPatch) :
    RenderableData × List Effect :=
  match patch.cameraInfoTopic with
  | some (some cameraInfoTopic) =>
    if rd.geometry.isNone then
      match env.camerasByTopic cameraInfoTopic with
      | some cameraModel =>
        let distance := rd.settings.distance
        let geometry := createGeometry cameraModel distance
        ({ rd with geometry := some geometry, mesh := none },
         [Effect.geometryBuilt rd.topic] ++
           (if rd.mesh.isSome then [Effect.detachMesh rd.topic] else []))
      | none => (rd, [])
    else (rd, [])
  | _ => (rd, [])

/-- Lines 390-393: create or update the material if needed. -/
def materialPhase (env : Env) (rd : RenderableData) (materialSettingsEqual : Bool) :
    RenderableData × List Effect :=
  if rd.material.isNone || !materialSettingsEqual then rebuildMaterial env rd
  else (rd, [])

def updateImageRenderable (env : Env) (rd0 : RenderableData) (image : ImageMsg)
    (patch : SettingsPatch) : UpdateResult :=
  let prevSettings := rd0.settings
  let newSettings := mergeSettings prevSettings patch
  let geometrySettingsEqual : Bool :=
    decide (newSettings.cameraInfoTopic = prevSettings.cameraInfoTopic) &&
    decide (newSettings.distance = prevSettings.distance)
  let materialSettingsEqual : Bool := decide (newSettings.color = prevSettings.color)
  let topic := rd0.topic
  let rd1 := { rd0 with settings := newSettings }
  let disposeRes := geometryDisposePhase rd1 geometrySettingsEqual
  let buildRes := geometryBuildPhase env disposeRes.1 patch
  let rd3 := buildRes.1
  -- Create or update the bitmap texture (346-388): a truthy-format image
  -- dispatches an asynchronous decode (its callback is `decodeCallbackBody`
  -- below); any other image makes the method throw, so the material and
  -- mesh steps below never run for it
  if image.formatTruthy then
    let decodeEff :=
      match image with
      | .compressed _ format data => [Effect.decodeDispatch topic format data]
      | .raw _ _ _ _ _ => []
    let matRes := materialPhase env rd3 materialSettingsEqual
    -- Create/recreate the mesh if needed (395-396)
    let meshRes := tryCreateMesh matRes.1
    { rd := meshRes.1
    , effects := [Effect.updateRun topic] ++ disposeRes.2 ++ buildRes.2 ++ decodeEff ++
        matRes.2 ++ meshRes.2
    , thrown := none }
  else
    { rd := rd3
    , effects := [Effect.updateRun topic] ++ disposeRes.2 ++ buildRes.2
    , thrown := some (unhandledImageMessage image) }

/-! ## The decode completion callback (lines 350-382) -/

/-- The texture constructed at lines 355-365 (`THREE.CanvasTexture` with
fixed filter/wrap/encoding parameters). -/
def mkCanvasTexture (bitmap : Bitmap) : Texture :=
  { image := bitmap, needsUpdate := false }

/-- The body of `createBitmap(...).then(...).catch(...)`: what runs when an
in-flight decode settles. It closes over the renderable object (not the
topic map), so it is applied to whatever that object's data is at
completion time — possibly a renderable that `dispose()` has since
stripped and detached. -/
def decodeCallbackBody (env : Env) (topic : String) (rd : RenderableData)
    (outcome : Except String Bitmap) : RenderableData × List Effect :=
  match outcome with
  | .error err =>
    (rd, [Effect.errorAdd topic CREATE_BITMAP_ERR ("createBitmap failed: " ++ err)])
  | .ok bitmap =>
    if rd.texture.isNone then
      let rdTex := { rd with texture := some (mkCanvasTexture bitmap) }
      let matRes := rebuildMaterial env rdTex
      let meshRes := tryCreateMesh matRes.1
      (meshRes.1,
       [Effect.createTextureEff topic] ++ matRes.2 ++ meshRes.2 ++
         [Effect.errorRemove topic CREATE_BITMAP_ERR])
    else
      ({ rd with texture := rd.texture.map (fun t => { t with image := bitmap, needsUpdate := true }) },
       [Effect.updateTextureEff topic, Effect.errorRemove topic CREATE_BITMAP_ERR])

/-- A decode completing while the closed-over renderable is still the
manager's entry for its topic: the entry is updated through the shared
reference. -/
def runDecodeLive (env : Env) (st : ImagesState) (topic : String)
    (outcome : Except String Bitmap) : ImagesState × List Effect :=
  match lookupTopic st.imagesByTopic topic with
  | some rd =>
    let res := decodeCallbackBody env topic rd outcome
    ({ st with imagesByTopic := setTopic st.imagesByTopic topic res.1 }, res.2)
  | none => (st, [])

/-! ## Public operations of `Images` -/

/-- The per-renderable part of `dispose()` (lines 189-197). -/
def disposeRenderable (rd : RenderableData) : RenderableData × List Effect :=
  ({ rd with texture := none, material := none, geometry := none, mesh := none },
   (if rd.texture.isSome then [Effect.disposeTexture rd.topic] else []) ++
   (if rd.material.isSome then [Effect.disposeMaterial rd.topic] else []) ++
   (if rd.geometry.isSome then [Effect.disposeGeometry rd.topic] else []))

/-- `dispose()` (lines 188-200): strip every renderable's resources, clear
the children list, and empty the topic map. (`cameraInfoTopics` and the
shared config are untouched.) -/
def dispose (st : ImagesState) : ImagesState × List Effect :=
  (({ st with imagesByTopic := [], childTopics := [] }),
   st.imagesByTopic.flatMap (fun kv => (disposeRenderable kv.2).2))

/-- `addImageMessage` (lines 202-245). -/
def addImageMessage (env : Env) (st : ImagesState) (topic : String) (image : ImageMsg) :
    StepResult :=
  let userSettings := lookupTopic st.configTopics topic
  -- Create an ImageRenderable for this topic if it doesn't already exist
  let created : ImagesState × RenderableData :=
    match lookupTopic st.imagesByTopic topic with
    | some renderable => (st, renderable)
    | none =>
      let renderable : RenderableData :=
        { topic := topic
        , settings := mergeSettings DEFAULT_SETTINGS (userSettings.getD emptyPatch)
        , image := image
        , pose := makePose
        , srcTime := rosTimeToNanoSec image.header.stamp
        , texture := none
        , material := none
        , geometry := none
        , mesh := none
        , visible := true }
      let st' := { st with
                   imagesByTopic := setTopic st.imagesByTopic topic renderable,
                   childTopics := st.childTopics ++ [topic] }
      (st', renderable)
  let st1 := created.1
  let renderable0 := created.2
  -- Auto-select settings.cameraInfoTopic if it's not already set (229-242)
  let auto : ImagesState × RenderableData × List Effect :=
    if renderable0.settings.cameraInfoTopic = none then
      let selected := autoSelectCameraInfoTopic topic st1.cameraInfoTopics
      let renderable1 :=
        { renderable0 with settings := { renderable0.settings with cameraInfoTopic := selected } }
      match selected with
      | some _ =>
        let updatedUserSettings :=
          { userSettings.getD emptyPatch with cameraInfoTopic := some selected }
        let st1' := { st1 with
                      configTopics := setTopic st1.configTopics topic updatedUserSettings,
                      imagesByTopic := setTopic st1.imagesByTopic topic renderable1 }
        (st1', renderable1, [Effect.emitSettingsTree ["topics", topic]])
      | none =>
        ({ st1 with imagesByTopic := setTopic st1.imagesByTopic topic renderable1 },
         renderable1, [])
    else (st1, renderable0, [])
  let st2 := auto.1
  let renderable2 := auto.2.1
  let upd := updateImageRenderable env renderable2 image (toPatch renderable2.settings)
  { st := { st2 with imagesByTopic := setTopic st2.imagesByTopic topic upd.rd }
  , effects := auto.2.2 ++ upd.effects
  , thrown := upd.thrown }

/-- `addCameraInfoMessage` (lines 247-260). The `CameraInfo` payload is
unused by the source. Note the renderable looked up is the one stored under
the CameraInfo topic name itself, and the settings-tree event fires only
when the preceding update did not throw. -/
def addCameraInfoMessage (env : Env) (st : ImagesState) (topic : String) : StepResult :=
  let updated := !(st.cameraInfoTopics.contains topic)
  let st1 :=
    { st with cameraInfoTopics :=
        if st.cameraInfoTopics.contains topic then st.cameraInfoTopics
        else st.cameraInfoTopics ++ [topic] }
  match lookupTopic st1.imagesByTopic topic with
  | some renderable =>
    let upd := updateImageRenderable env renderable renderable.image (toPatch renderable.settings)
    let st2 := { st1 with imagesByTopic := setTopic st1.imagesByTopic topic upd.rd }
    match upd.thrown with
    | some e => { st := st2, effects := upd.effects, thrown := some e }
    | none =>
      { st := st2
      , effects := upd.effects ++ (if updated then [Effect.emitSettingsTree ["topics"]] else [])
      , thrown := none }
  | none =>
    { st := st1
    , effects := if updated then [Effect.emitSettingsTree ["topics"]] else []
    , thrown := none }

/-- `setTopicSettings` (lines 262-267). -/
def setTopicSettings (env : Env) (st : ImagesState) (topic : String) (patch : SettingsPatch) :
    StepResult :=
  match lookupTopic st.imagesByTopic topic with
  | some renderable =>
    let upd := updateImageRenderable env renderable renderable.image patch
    { st := { st with imagesByTopic := setTopic st.imagesByTopic topic upd.rd }
    , effects := upd.effects
    , thrown := upd.thrown }
  | none => { st := st, effects := [], thrown := none }

/-- The per-renderable body of the `startFrame` loop (lines 278-300). -/
def startFrameRenderable (env : Env) (renderFrameId fixedFrameId : String) (currentTime : ℕ)
    (rd : RenderableData) : RenderableData × List Effect :=
  let rd := { rd with visible := rd.settings.visible }
  if !rd.visible then
    (rd, [Effect.errorClear rd.topic])
  else
    let srcTime := currentTime
    let frameId := rd.image.header.frame_id
    let callEff := Effect.resolveCall renderFrameId fixedFrameId frameId currentTime srcTime
    match env.resolvePose renderFrameId fixedFrameId frameId currentTime srcTime with
    | some pose => ({ rd with pose := pose }, [callEff])
    | none =>
      (rd, [callEff,
        Effect.errorAdd rd.topic MISSING_TRANSFORM
          (env.missingTransformMessage renderFrameId fixedFrameId frameId)])

/-- `startFrame` (lines 269-301). -/
def startFrame (env : Env) (st : ImagesState) (currentTime : ℕ) :
    ImagesState × List Effect :=
  match env.renderFrameId, env.fixedFrameId with
  | some renderFrameId, some fixedFrameId =>
    let steps := st.imagesByTopic.map
      (fun kv => (kv.1, startFrameRenderable env renderFrameId fixedFrameId currentTime kv.2))
    let st' := { st with
                 visible := true,
                 imagesByTopic := steps.map (fun kv => (kv.1, kv.2.1)) }
    (st', steps.flatMap (fun kv => kv.2.2))
  | _, _ => ({ st with visible := false }, [])

lemma charListLe_refl : ∀ cs : List Char, charListLe cs cs = true := by
  intro cs
  induction cs with
  | nil => rfl
  | cons a as ih => simp [charListLe, ih]

lemma jsStringLe_refl (s : String) : jsStringLe s s = true :=
  charListLe_refl s.data

lemma charListLe_total : ∀ a b : List Char, charListLe a b = true ∨ charListLe b a = true := by
  intro a
  induction a with
  | nil => intro b; left; rfl
  | cons x xs ih =>
    intro b
    cases b with
    | nil => right; rfl
    | cons y ys =>
      rcases Nat.lt_trichotomy x.toNat y.toNat with h | h | h
      · left; simp [charListLe, h]
      · rcases ih ys with h' | h'
        · left; simp [charListLe, h, h']
        · right; simp [charListLe, h.symm, h']
      · right; simp [charListLe, h]

lemma charListLe_trans :
    ∀ a b c : List Char, charListLe a b = true → charListLe b c = true →
      charListLe a c = true := by
  intro a
  induction a with
  | nil => intro b c _ _; rfl
  | cons x xs ih =>
    intro b c hab hbc
    cases b with
    | nil => simp [charListLe] at hab
    | cons y ys =>
      cases c with
      | nil => simp [charListLe] at hbc
      | cons z zs =>
        simp only [charListLe] at hab hbc ⊢
        by_cases hxy : x.toNat < y.toNat
        · by_cases hyz : y.toNat < z.toNat
          · simp [Nat.lt_trans hxy hyz]
          · by_cases hzy : z.toNat < y.toNat
            · simp [hyz, hzy] at hbc
            · have : y.toNat = z.toNat := Nat.le_antisymm (Nat.le_of_not_lt hzy) (Nat.le_of_not_lt hyz)
              simp [this ▸ hxy]
        · by_cases hyx : y.toNat < x.toNat
          · simp [hxy, hyx] at hab
          · have hxy' : x.toNat = y.toNat := Nat.le_antisymm (Nat.le_of_not_lt hyx) (Nat.le_of_not_lt hxy)
            simp only [hxy', hyx] at hab
            by_cases hyz : y.toNat < z.toNat
            · simp [hxy' ▸ hyz]
            · by_cases hzy : z.toNat < y.toNat
              · simp [hyz, hzy] at hbc
              · have hyz' : y.toNat = z.toNat := Nat.le_antisymm (Nat.le_of_not_lt hzy) (Nat.le_of_not_lt hyz)
                simp only [hyz', hzy] at hbc
                have := ih ys zs (by simpa [hxy, hyx] using hab) (by simpa using hbc)
                simp [hxy', hyz', this]

instance : IsTotal String (fun a b => jsStringLe a b = true) :=
  ⟨fun a b => charListLe_total a.data b.data⟩

instance : IsTrans String (fun a b => jsStringLe a b = true) :=
  ⟨fun a b c => charListLe_trans a.data b.data c.data⟩

lemma sortStrings_perm (l : List String) : (sortStrings l).Perm l :=
  List.perm_insertionSort _ l

lemma sortStrings_sorted (l : List String) :
    List.Sorted (fun a b => jsStringLe a b = true) (sortStrings l) :=
  List.sorted_insertionSort _ l

/-- The head of the sorted candidate list is a candidate and is a
lower bound for all candidates. -/
lemma sortStrings_head_min {l : List String} {m : String}
    (h : (sortStrings l).head? = some m) :
    m ∈ l ∧ ∀ x ∈ l, jsStringLe m x = true := by
  have hsorted := sortStrings_sorted l
  have hperm := sortStrings_perm l
  cases hs : sortStrings l with
  | nil => rw [hs] at h; simp at h
  | cons a rest =>
    rw [hs] at h hsorted hperm
    have ha : a = m := by simpa using h
    subst ha
    constructor
    · exact hperm.mem_iff.mp (List.mem_cons_self a rest)
    · intro x hx
      have hx' : x ∈ a :: rest := hperm.mem_iff.mpr hx
      rcases List.mem_cons.mp hx' with rfl | hx''
      · exact jsStringLe_refl x
      · exact List.rel_of_sorted_cons hsorted x hx''

lemma sortStrings_eq_nil_iff (l : List String) : sortStrings l = [] ↔ l = [] := by
  constructor
  · intro h
    have := sortStrings_perm l
    rw [h] at this
    exact this.symm.eq_nil
  · intro h
    subst h
    rfl

/-! ## Concrete fixtures used by counterexamples and witnesses -/

/-- A sample camera model: identity rectification, rays through the pixel at
unit depth. -/
def sampleCam : CameraModel :=
  { width := 2
  , height := 2
  , rectifyPixel := fun p => p
  , projectPixelTo3dRay := fun p => ⟨p.x, p.y, 1⟩ }

/-- An environment with both frame ids known, no camera models, every
transform lookup failing, and opaque white for every color string. -/
def sampleEnv : Env :=
  { camerasByTopic := fun _ => none
  , renderFrameId := some "map"
  , fixedFrameId := some "base"
  , resolvePose := fun _ _ _ _ _ => none
  , stringToRgba := fun _ => ⟨1, 1, 1, 1⟩
  , missingTransformMessage := fun _ _ _ => "missing transform" }

/-- `sampleEnv` with a camera model available for topic `cam/info`. -/
def envWithCam : Env :=
  { sampleEnv with camerasByTopic := fun t => if t = "cam/info" then some sampleCam else none }

/-- The manager's initial state: fresh maps, visible, no user config. -/
def st0 : ImagesState := ⟨[], [], [], true, []⟩

/-- A compressed image stamped 1s in frame `cam`. -/
def imgA : ImageMsg := .compressed ⟨"cam", ⟨1, 0⟩⟩ "png" [10, 20]

/-- A second compressed image with a different stamp and frame. -/
def imgB : ImageMsg := .compressed ⟨"cam2", ⟨2, 5⟩⟩ "jpeg" [30]

/-- A raw (uncompressed) image. -/
def imgRaw : ImageMsg := .raw ⟨"cam", ⟨3, 0⟩⟩ 4 3 "rgb8" [0, 0, 0]

/-- The state after one image message on `a/image` (no camera infos). -/
def stateWithImage : ImagesState := (addImageMessage sampleEnv st0 "a/image" imgA).st

/-- The state after one image message stored under topic `t`. -/
def stateImgAtT : ImagesState := (addImageMessage sampleEnv st0 "t" imgA).st

/-- The renderable `addImageMessage` creates for topic `t` from `imgA` with
no user settings. -/
def rdT : RenderableData :=
  { topic := "t"
  , settings := DEFAULT_SETTINGS
  , image := imgA
  , pose := makePose
  , srcTime := 1000000000
  , texture := none
  , material := none
  , geometry := none
  , mesh := none
  , visible := true }

/-- The data model's resource invariant on a renderable: a mesh is present
exactly when both geometry and material are. -/
def meshInvariant (rd : RenderableData) : Prop :=
  rd.mesh.isSome = true ↔ (rd.geometry.isSome = true ∧ rd.material.isSome = true)

/-- The invariant over every renderable the manager holds. -/
def stateMeshInvariant (st : ImagesState) : Prop :=
  ∀ kv ∈ st.imagesByTopic, meshInvariant kv.2

/-- A settings patch carrying only a camera-info topic selection. -/
def patchInfo : SettingsPatch := ⟨none, some (some "cam/info"), none, none⟩

/-- A settings patch carrying only a tint-color change. -/
def colorPatch : SettingsPatch := ⟨none, none, none, some "#ff0000"⟩

/-- State after `cam/info` became a known camera-info topic (no renderable). -/
def stInfoKnown : ImagesState := (addCameraInfoMessage sampleEnv st0 "cam/info").st

/-- State after an image on `cam/image` arrived with `cam/info` known but its
camera model unavailable: the renderable auto-selected `cam/info` yet has no
geometry. -/
def stImgSel : ImagesState := (addImageMessage sampleEnv stInfoKnown "cam/image" imgA).st

/-- The renderable on `cam/image` in `stImgSel`: camera-info topic
`cam/info` selected, no geometry, no material, no texture. -/
def rdSel : RenderableData := (lookupTopic stImgSel.imagesByTopic "cam/image").getD rdT

/-- Trace for the mesh-invariant counterexample, step 1: image arrives on
`cam/image` (no camera-info topics known). -/
def stC7a : ImagesState := (addImageMessage sampleEnv st0 "cam/image" imgA).st

/-- Step 2: the pending decode completes — texture and material exist. -/
def stC7b : ImagesState := (runDecodeLive sampleEnv stC7a "cam/image" (Except.ok ⟨4, 3⟩)).1

/-- Step 3: the user selects `cam/info` while its camera model is still
unavailable — geometry stays absent, material remains. -/
def stC7c : ImagesState := (setTopicSettings sampleEnv stC7b "cam/image" patchInfo).st

/-- `stateWithImage` after the pending decode for `a/image` completed with a
4×3 bitmap: its renderable owns a texture and a material. -/
def stateDecoded : ImagesState :=
  (runDecodeLive sampleEnv stateWithImage "a/image" (Except.ok ⟨4, 3⟩)).1

/-- The stale renderable object for `a/image` as `dispose()` leaves it:
resources stripped, no longer in the topic map, but still closed over by
the in-flight decode callback. -/
def staleRd : RenderableData :=
  (disposeRenderable ((lookupTopic stateDecoded.imagesByTopic "a/image").getD rdT)).1

/-! ## Helper lemmas about the association lists -/

lemma lookupTopic_mem {α : Type} {m : List (String × α)} {t : String} {v : α}
    (h : lookupTopic m t = some v) : (t, v) ∈ m := by
  induction m with
  | nil => simp [lookupTopic, List.lookup] at h
  | cons kv rest ih =>
    obtain ⟨k, w⟩ := kv
    simp only [lookupTopic, List.lookup] at h
    by_cases hk : t = k
    · subst hk
      simp at h
      subst h
      exact List.mem_cons_self _ _
    · simp [beq_false_of_ne hk] at h
      exact List.mem_cons_of_mem _ (ih h)

lemma mem_setTopic {α : Type} {m : List (String × α)} {t : String} {v : α}
    {kv : String × α} (h : kv ∈ setTopic m t v) : kv = (t, v) ∨ kv ∈ m := by
  induction m with
  | nil => simpa [setTopic] using h
  | cons kw rest ih =>
    obtain ⟨k, w⟩ := kw
    simp only [setTopic] at h
    by_cases hk : k = t
    · simp only [hk, if_pos rfl] at h
      rcases List.mem_cons.mp h with rfl | hrest
      · left; rfl
      · right; exact List.mem_cons_of_mem _ hrest
    · simp only [if_neg hk] at h
      rcases List.mem_cons.mp h with rfl | hrest
      · right; exact List.mem_cons_self _ _
      · rcases ih hrest with h' | h'
        · left; exact h'
        · right; exact List.mem_cons_of_mem _ h'

/-! ## Effect-trace lemmas for `_updateImageRenderable` -/

lemma mem_geometryDisposePhase {rd : RenderableData} {geq : Bool} {e : Effect}
    (h : e ∈ (geometryDisposePhase rd geq).2) :
    e = Effect.disposeGeometry rd.topic ∨ e = Effect.detachMesh rd.topic := by
  unfold geometryDisposePhase at h
  split at h
  · simp only [List.mem_append] at h
    rcases h with h | h <;> split at h <;> simp_all
  · simp at h

lemma mem_geometryBuildPhase {env : Env} {rd : RenderableData} {patch : SettingsPatch}
    {e : Effect} (h : e ∈ (geometryBuildPhase env rd patch).2) :
    e = Effect.geometryBuilt rd.topic ∨ e = Effect.detachMesh rd.topic := by
  unfold geometryBuildPhase at h
  split at h
  · split at h
    · split at h
      · simp only [List.mem_append, List.mem_singleton] at h
        rcases h with h | h
        · left; exact h
        · right; split at h <;> simp_all
      · simp at h
    · simp at h
  · simp at h

lemma mem_rebuildMaterial {env : Env} {rd : RenderableData} {e : Effect}
    (h : e ∈ (rebuildMaterial env rd).2) :
    e = Effect.materialRebuilt rd.topic ∨ e = Effect.disposeMaterial rd.topic ∨
      e = Effect.detachMesh rd.topic := by
  unfold rebuildMaterial at h
  simp only [List.mem_append, List.mem_singleton] at h
  rcases h with (h | h) | h
  · left; exact h
  · right; left; split at h <;> simp_all
  · right; right; split at h <;> simp_all

lemma mem_materialPhase {env : Env} {rd : RenderableData} {meq : Bool} {e : Effect}
    (h : e ∈ (materialPhase env rd meq).2) :
    e = Effect.materialRebuilt rd.topic ∨ e = Effect.disposeMaterial rd.topic ∨
      e = Effect.detachMesh rd.topic := by
  unfold materialPhase at h
  split at h
  · exact mem_rebuildMaterial h
  · simp at h

lemma mem_tryCreateMesh {rd : RenderableData} {e : Effect}
    (h : e ∈ (tryCreateMesh rd).2) : e = Effect.attachMesh rd.topic := by
  unfold tryCreateMesh at h
  split at h <;> simp_all

lemma geometryDisposePhase_topic (rd : RenderableData) (geq : Bool) :
    (geometryDisposePhase rd geq).1.topic = rd.topic := by
  unfold geometryDisposePhase; split <;> rfl

lemma geometryBuildPhase_topic (env : Env) (rd : RenderableData) (patch : SettingsPatch) :
    (geometryBuildPhase env rd patch).1.topic = rd.topic := by
  unfold geometryBuildPhase
  split
  · split
    · split <;> rfl
    · rfl
  · rfl

lemma rebuildMaterial_topic (env : Env) (rd : RenderableData) :
    (rebuildMaterial env rd).1.topic = rd.topic := rfl

lemma materialPhase_topic (env : Env) (rd : RenderableData) (meq : Bool) :
    (materialPhase env rd meq).1.topic = rd.topic := by
  unfold materialPhase; split <;> rfl

lemma tryCreateMesh_topic (rd : RenderableData) :
    (tryCreateMesh rd).1.topic = rd.topic := by
  unfold tryCreateMesh; split <;> rfl

/-- Every effect of `_updateImageRenderable` concerns the renderable's own
topic, and only the listed kinds can occur (in particular no settings-tree
event and no error-channel call). -/
lemma mem_update_effects {env : Env} {rd0 : RenderableData} {image : ImageMsg}
    {patch : SettingsPatch} {e : Effect}
    (h : e ∈ (updateImageRenderable env rd0 image patch).effects) :
    e = Effect.updateRun rd0.topic ∨ e = Effect.disposeGeometry rd0.topic ∨
    e = Effect.detachMesh rd0.topic ∨ e = Effect.geometryBuilt rd0.topic ∨
    (∃ f d, e = Effect.decodeDispatch rd0.topic f d) ∨
    e = Effect.materialRebuilt rd0.topic ∨ e = Effect.disposeMaterial rd0.topic ∨
    e = Effect.attachMesh rd0.topic := by
  unfold updateImageRenderable at h
  dsimp only at h
  split at h
  · simp only [List.mem_append, List.mem_singleton] at h
    rcases h with ((((h | h) | h) | h) | h) | h
    · left; exact h
    · rcases mem_geometryDisposePhase h with h | h
      · right; left; exact h
      · right; right; left; exact h
    · rcases mem_geometryBuildPhase h with h | h
      · rw [geometryDisposePhase_topic] at h
        right; right; right; left; exact h
      · rw [geometryDisposePhase_topic] at h
        right; right; left; exact h
    · split at h
      · simp only [List.mem_singleton] at h
        right; right; right; right; left; exact ⟨_, _, h⟩
      · simp at h
    · rcases mem_materialPhase h with h | h | h <;>
        rw [geometryBuildPhase_topic, geometryDisposePhase_topic] at h
      · right; right; right; right; right; left; exact h
      · right; right; right; right; right; right; left; exact h
      · right; right; left; exact h
    · have h' := mem_tryCreateMesh h
      rw [materialPhase_topic, geometryBuildPhase_topic, geometryDisposePhase_topic] at h'
      right; right; right; right; right; right; right; exact h'
  · simp only [List.mem_append, List.mem_singleton] at h
    rcases h with (h | h) | h
    · left; exact h
    · rcases mem_geometryDisposePhase h with h | h
      · right; left; exact h
      · right; right; left; exact h
    · rcases mem_geometryBuildPhase h with h | h
      · rw [geometryDisposePhase_topic] at h
        right; right; right; left; exact h
      · rw [geometryDisposePhase_topic] at h
        right; right; left; exact h

lemma updateRun_mem_update (env : Env) (rd0 : RenderableData) (image : ImageMsg)
    (patch : SettingsPatch) :
    Effect.updateRun rd0.topic ∈ (updateImageRenderable env rd0 image patch).effects := by
  unfold updateImageRenderable
  dsimp only
  split <;> simp

lemma updateRun_mem_update_iff (env : Env) (rd0 : RenderableData) (image : ImageMsg)
    (patch : SettingsPatch) (t : String) :
    Effect.updateRun t ∈ (updateImageRenderable env rd0 image patch).effects ↔
      t = rd0.topic := by
  constructor
  · intro h
    rcases mem_update_effects h with h | h | h | h | ⟨f, d, h⟩ | h | h | h <;> simp_all
  · rintro rfl
    exact updateRun_mem_update env rd0 image patch

lemma emit_not_mem_update (env : Env) (rd0 : RenderableData) (image : ImageMsg)
    (patch : SettingsPatch) (p : List String) :
    Effect.emitSettingsTree p ∉ (updateImageRenderable env rd0 image patch).effects := by
  intro h
  rcases mem_update_effects h with h | h | h | h | ⟨f, d, h⟩ | h | h | h <;> simp_all

/-! ## Reduction lemmas for the phases of `_updateImageRenderable` -/

lemma lookupTopic_setTopic_self {α : Type} (m : List (String × α)) (t : String) (v : α) :
    lookupTopic (setTopic m t v) t = some v := by
  induction m with
  | nil => simp [setTopic, lookupTopic, List.lookup]
  | cons kv rest ih =>
    obtain ⟨k, w⟩ := kv
    by_cases hk : k = t
    · subst hk
      simp [setTopic, lookupTopic, List.lookup]
    · simp only [setTopic, if_neg hk, lookupTopic, List.lookup]
      rw [beq_false_of_ne (fun h => hk h.symm)]
      exact ih

lemma geometryDisposePhase_true (rd : RenderableData) :
    geometryDisposePhase rd true = (rd, []) := rfl

lemma geometryDisposePhase_false (rd : RenderableData) :
    geometryDisposePhase rd false =
      ({ rd with geometry := none, mesh := none },
       (if rd.geometry.isSome then [Effect.disposeGeometry rd.topic] else []) ++
       (if rd.mesh.isSome then [Effect.detachMesh rd.topic] else [])) := rfl

lemma geometryBuildPhase_noCit {patch : SettingsPatch} (env : Env) (rd : RenderableData)
    (h : patch.cameraInfoTopic = none) : geometryBuildPhase env rd patch = (rd, []) := by
  unfold geometryBuildPhase
  rw [h]

lemma geometryBuildPhase_citUndefined {patch : SettingsPatch} (env : Env) (rd : RenderableData)
    (h : patch.cameraInfoTopic = some none) : geometryBuildPhase env rd patch = (rd, []) := by
  unfold geometryBuildPhase
  rw [h]

lemma geometryBuildPhase_geomSome {patch : SettingsPatch} (env : Env) (rd : RenderableData)
    (h : rd.geometry.isSome = true) : geometryBuildPhase env rd patch = (rd, []) := by
  obtain ⟨g, hg⟩ := Option.isSome_iff_exists.mp h
  unfold geometryBuildPhase
  rcases hp : patch.cameraInfoTopic with _ | c
  · rfl
  · rcases c with _ | cit
    · rfl
    · simp [hg]

lemma geometryBuildPhase_noCam {patch : SettingsPatch} (env : Env) (rd : RenderableData)
    {cit : String} (hp : patch.cameraInfoTopic = some (some cit)) (hg : rd.geometry = none)
    (hcam : env.camerasByTopic cit = none) : geometryBuildPhase env rd patch = (rd, []) := by
  unfold geometryBuildPhase
  rw [hp]
  simp [hg, hcam]

lemma geometryBuildPhase_build {patch : SettingsPatch} (env : Env) (rd : RenderableData)
    {cit : String} {cam : CameraModel}
    (hp : patch.cameraInfoTopic = some (some cit)) (hg : rd.geometry = none)
    (hcam : env.camerasByTopic cit = some cam) :
    geometryBuildPhase env rd patch =
      ({ rd with geometry := some (createGeometry cam rd.settings.distance), mesh := none },
       [Effect.geometryBuilt rd.topic] ++
         (if rd.mesh.isSome then [Effect.detachMesh rd.topic] else [])) := by
  unfold geometryBuildPhase
  rw [hp]
  simp [hg, hcam]

lemma materialPhase_skip (env : Env) (rd : RenderableData) (hm : rd.material.isSome = true) :
    materialPhase env rd true = (rd, []) := by
  obtain ⟨m, hm'⟩ := Option.isSome_iff_exists.mp hm
  unfold materialPhase
  simp [hm']

lemma materialPhase_matNone (env : Env) (rd : RenderableData) (meq : Bool)
    (hm : rd.material = none) : materialPhase env rd meq = rebuildMaterial env rd := by
  unfold materialPhase
  simp [hm]

lemma materialPhase_rebuild (env : Env) (rd : RenderableData) :
    materialPhase env rd false = rebuildMaterial env rd := by
  unfold materialPhase
  simp

lemma rebuildMaterial_eq (env : Env) (rd : RenderableData) :
    rebuildMaterial env rd =
      ({ rd with material := rd.texture.map (fun t => createMaterial env t rd), mesh := none },
       [Effect.materialRebuilt rd.topic] ++
         (if rd.material.isSome then [Effect.disposeMaterial rd.topic] else []) ++
         (if rd.mesh.isSome then [Effect.detachMesh rd.topic] else [])) := rfl

lemma tryCreateMesh_meshSome (rd : RenderableData) (h : rd.mesh.isSome = true) :
    tryCreateMesh rd = (rd, []) := by
  obtain ⟨m, hm⟩ := Option.isSome_iff_exists.mp h
  unfold tryCreateMesh
  rw [hm]

lemma tryCreateMesh_noGeom (rd : RenderableData) (h : rd.geometry = none) :
    tryCreateMesh rd = (rd, []) := by
  unfold tryCreateMesh
  rw [h]
  rcases rd.mesh <;> rfl

lemma tryCreateMesh_noMat (rd : RenderableData) (h : rd.material = none) :
    tryCreateMesh rd = (rd, []) := by
  unfold tryCreateMesh
  rw [h]
  rcases rd.mesh <;> rcases rd.geometry <;> rfl

lemma tryCreateMesh_create (rd : RenderableData) {g : PlaneGeometry} {m : Material}
    (hme : rd.mesh = none) (hg : rd.geometry = some g) (hm : rd.material = some m) :
    tryCreateMesh rd =
      ({ rd with mesh := some { geometry := g, material := m } },
       [Effect.attachMesh rd.topic]) := by
  unfold tryCreateMesh
  rw [hme, hg, hm]

set_option maxHeartbeats 2000000 in
/-- Updating with the renderable's own full settings as the patch never
disposes geometry or material and never detaches a mesh (every effect is
one of the non-destructive kinds). The two hypotheses are reachability
invariants: a mesh implies geometry and material, and a material exists
exactly when a texture does. -/
lemma update_self_patch_effects {env : Env} {rd : RenderableData}
    (hmesh : rd.mesh.isSome = true → rd.geometry.isSome = true ∧ rd.material.isSome = true)
    (hmat : rd.material.isSome = rd.texture.isSome) {e : Effect}
    (he : e ∈ (updateImageRenderable env rd rd.image (toPatch rd.settings)).effects) :
    (∀ t, e ≠ Effect.disposeGeometry t) ∧ (∀ t, e ≠ Effect.disposeMaterial t) ∧
    (∀ t, e ≠ Effect.detachMesh t) := by
  have hms : mergeSettings rd.settings (toPatch rd.settings) = rd.settings := rfl
  have heta : ({ rd with settings := rd.settings } : RenderableData) = rd := rfl
  unfold updateImageRenderable at he
  dsimp only at he
  rw [hms, heta] at he
  simp only [eq_self_iff_true, decide_True, Bool.and_self] at he
  rw [geometryDisposePhase_true] at he
  dsimp only at he
  unfold geometryBuildPhase materialPhase rebuildMaterial tryCreateMesh at he
  dsimp only at he
  repeat' split at he
  all_goals simp_all
  all_goals casesm* _ ∨ _
  all_goals simp_all

set_option maxHeartbeats 2000000 in
/-- Updating with the renderable's own full settings as the patch preserves
the material, the texture, any existing geometry and any existing mesh. -/
lemma update_self_patch_rd {env : Env} {rd : RenderableData}
    (hmesh : rd.mesh.isSome = true → rd.geometry.isSome = true ∧ rd.material.isSome = true)
    (hmat : rd.material.isSome = rd.texture.isSome) :
    (updateImageRenderable env rd rd.image (toPatch rd.settings)).rd.material = rd.material ∧
    (updateImageRenderable env rd rd.image (toPatch rd.settings)).rd.texture = rd.texture ∧
    (rd.geometry.isSome = true →
      (updateImageRenderable env rd rd.image (toPatch rd.settings)).rd.geometry = rd.geometry) ∧
    (rd.mesh.isSome = true →
      (updateImageRenderable env rd rd.image (toPatch rd.settings)).rd.mesh = rd.mesh) := by
  have hms : mergeSettings rd.settings (toPatch rd.settings) = rd.settings := rfl
  have heta : ({ rd with settings := rd.settings } : RenderableData) = rd := rfl
  unfold updateImageRenderable
  dsimp only
  rw [hms, heta]
  simp only [eq_self_iff_true, decide_True, Bool.and_self]
  rw [geometryDisposePhase_true]
  dsimp only
  unfold geometryBuildPhase materialPhase rebuildMaterial tryCreateMesh
  dsimp only
  repeat' split
  all_goals simp_all

/-! ## Projection and exclusion lemmas for the update phases -/

lemma geometryDisposePhase_settings (rd : RenderableData) (geq : Bool) :
    (geometryDisposePhase rd geq).1.settings = rd.settings := by
  unfold geometryDisposePhase
  split <;> rfl

lemma geometryDisposePhase_material (rd : RenderableData) (geq : Bool) :
    (geometryDisposePhase rd geq).1.material = rd.material := by
  unfold geometryDisposePhase
  split <;> rfl

lemma geometryDisposePhase_texture (rd : RenderableData) (geq : Bool) :
    (geometryDisposePhase rd geq).1.texture = rd.texture := by
  unfold geometryDisposePhase
  split <;> rfl

lemma geometryDisposePhase_geometry (rd : RenderableData) (geq : Bool) :
    (geometryDisposePhase rd geq).1.geometry = (if geq = true then rd.geometry else none) := by
  cases geq <;> rfl

lemma geometryDisposePhase_mesh (rd : RenderableData) (geq : Bool) :
    (geometryDisposePhase rd geq).1.mesh = (if geq = true then rd.mesh else none) := by
  cases geq <;> rfl

lemma geometryBuildPhase_settings (env : Env) (rd : RenderableData) (patch : SettingsPatch) :
    (geometryBuildPhase env rd patch).1.settings = rd.settings := by
  unfold geometryBuildPhase
  split
  · split
    · split <;> rfl
    · rfl
  · rfl

lemma geometryBuildPhase_material (env : Env) (rd : RenderableData) (patch : SettingsPatch) :
    (geometryBuildPhase env rd patch).1.material = rd.material := by
  unfold geometryBuildPhase
  split
  · split
    · split <;> rfl
    · rfl
  · rfl

lemma geometryBuildPhase_texture (env : Env) (rd : RenderableData) (patch : SettingsPatch) :
    (geometryBuildPhase env rd patch).1.texture = rd.texture := by
  unfold geometryBuildPhase
  split
  · split
    · split <;> rfl
    · rfl
  · rfl

lemma materialPhase_geometry (env : Env) (rd : RenderableData) (meq : Bool) :
    (materialPhase env rd meq).1.geometry = rd.geometry := by
  unfold materialPhase rebuildMaterial
  split <;> rfl

lemma materialPhase_settings (env : Env) (rd : RenderableData) (meq : Bool) :
    (materialPhase env rd meq).1.settings = rd.settings := by
  unfold materialPhase rebuildMaterial
  split <;> rfl

lemma materialPhase_texture (env : Env) (rd : RenderableData) (meq : Bool) :
    (materialPhase env rd meq).1.texture = rd.texture := by
  unfold materialPhase rebuildMaterial
  split <;> rfl

lemma tryCreateMesh_geometry (rd : RenderableData) :
    (tryCreateMesh rd).1.geometry = rd.geometry := by
  unfold tryCreateMesh
  split <;> rfl

lemma tryCreateMesh_material (rd : RenderableData) :
    (tryCreateMesh rd).1.material = rd.material := by
  unfold tryCreateMesh
  split <;> rfl

lemma materialPhase_cond_true (env : Env) (rd : RenderableData) (meq : Bool)
    (h : (rd.material.isNone || !meq) = true) :
    materialPhase env rd meq = rebuildMaterial env rd := by
  unfold materialPhase
  rw [if_pos h]

lemma materialPhase_cond_false (env : Env) (rd : RenderableData) (meq : Bool)
    (h : (rd.material.isNone || !meq) = false) :
    materialPhase env rd meq = (rd, []) := by
  unfold materialPhase
  rw [if_neg]
  simp [h]

lemma update_thrown_none_iff (env : Env) (rd : RenderableData) (image : ImageMsg)
    (patch : SettingsPatch) :
    (updateImageRenderable env rd image patch).thrown = none ↔
      image.formatTruthy = true := by
  unfold updateImageRenderable
  dsimp only
  split <;> simp_all

lemma not_mem_disposePhase_materialRebuilt {rd : RenderableData} {geq : Bool} (t : String) :
    Effect.materialRebuilt t ∉ (geometryDisposePhase rd geq).2 := by
  intro h
  rcases mem_geometryDisposePhase h with h | h <;> simp at h

lemma not_mem_disposePhase_geometryBuilt {rd : RenderableData} {geq : Bool} (t : String) :
    Effect.geometryBuilt t ∉ (geometryDisposePhase rd geq).2 := by
  intro h
  rcases mem_geometryDisposePhase h with h | h <;> simp at h

lemma not_mem_buildPhase_disposeGeometry {env : Env} {rd : RenderableData}
    {patch : SettingsPatch} (t : String) :
    Effect.disposeGeometry t ∉ (geometryBuildPhase env rd patch).2 := by
  intro h
  rcases mem_geometryBuildPhase h with h | h <;> simp at h

lemma not_mem_buildPhase_materialRebuilt {env : Env} {rd : RenderableData}
    {patch : SettingsPatch} (t : String) :
    Effect.materialRebuilt t ∉ (geometryBuildPhase env rd patch).2 := by
  intro h
  rcases mem_geometryBuildPhase h with h | h <;> simp at h

lemma not_mem_materialPhase_disposeGeometry {env : Env} {rd : RenderableData} {meq : Bool}
    (t : String) : Effect.disposeGeometry t ∉ (materialPhase env rd meq).2 := by
  intro h
  rcases mem_materialPhase h with h | h | h <;> simp at h

lemma not_mem_materialPhase_geometryBuilt {env : Env} {rd : RenderableData} {meq : Bool}
    (t : String) : Effect.geometryBuilt t ∉ (materialPhase env rd meq).2 := by
  intro h
  rcases mem_materialPhase h with h | h | h <;> simp at h

lemma not_mem_tryCreateMesh_disposeGeometry {rd : RenderableData} (t : String) :
    Effect.disposeGeometry t ∉ (tryCreateMesh rd).2 := by
  intro h
  have := mem_tryCreateMesh h
  simp at this

lemma not_mem_tryCreateMesh_materialRebuilt {rd : RenderableData} (t : String) :
    Effect.materialRebuilt t ∉ (tryCreateMesh rd).2 := by
  intro h
  have := mem_tryCreateMesh h
  simp at this

lemma not_mem_tryCreateMesh_geometryBuilt {rd : RenderableData} (t : String) :
    Effect.geometryBuilt t ∉ (tryCreateMesh rd).2 := by
  intro h
  have := mem_tryCreateMesh h
  simp at this

/-! ## Characterizations of the rebuild triggers (for C4) -/

/-- When the merged geometry settings are unchanged, no geometry is
disposed during the update. -/
lemma disposeGeometry_not_mem_update_of_geq (env : Env) (rd : RenderableData)
    (image : ImageMsg) (patch : SettingsPatch) (t : String)
    (hgeq : (mergeSettings rd.settings patch).cameraInfoTopic = rd.settings.cameraInfoTopic ∧
      (mergeSettings rd.settings patch).distance = rd.settings.distance) :
    Effect.disposeGeometry t ∉ (updateImageRenderable env rd image patch).effects := by
  unfold updateImageRenderable
  dsimp only
  have hb : (decide ((mergeSettings rd.settings patch).cameraInfoTopic =
      rd.settings.cameraInfoTopic) &&
      decide ((mergeSettings rd.settings patch).distance = rd.settings.distance)) = true := by
    simp [hgeq.1, hgeq.2]
  rw [hb, geometryDisposePhase_true]
  dsimp only
  intro h
  split at h
  · simp only [List.mem_append, List.mem_singleton] at h
    rcases h with (((((h | h) | h) | h) | h) | h)
    · simp at h
    · simp at h
    · exact not_mem_buildPhase_disposeGeometry t h
    · split at h <;> simp_all
    · exact not_mem_materialPhase_disposeGeometry t h
    · exact not_mem_tryCreateMesh_disposeGeometry t h
  · simp only [List.mem_append, List.mem_singleton] at h
    rcases h with ((h | h) | h)
    · simp at h
    · simp at h
    · exact not_mem_buildPhase_disposeGeometry t h

/-- When the merged geometry settings changed, the geometry-dispose effect
occurs exactly when a geometry existed. -/
lemma disposeGeometry_mem_update_of_ne (env : Env) (rd : RenderableData)
    (image : ImageMsg) (patch : SettingsPatch)
    (hgeq : ¬((mergeSettings rd.settings patch).cameraInfoTopic = rd.settings.cameraInfoTopic ∧
      (mergeSettings rd.settings patch).distance = rd.settings.distance)) :
    Effect.disposeGeometry rd.topic ∈ (updateImageRenderable env rd image patch).effects ↔
      rd.geometry.isSome = true := by
  unfold updateImageRenderable
  dsimp only
  have hb : (decide ((mergeSettings rd.settings patch).cameraInfoTopic =
      rd.settings.cameraInfoTopic) &&
      decide ((mergeSettings rd.settings patch).distance = rd.settings.distance)) = false := by
    rcases not_and_or.mp hgeq with h | h <;> simp [h]
  rw [hb, geometryDisposePhase_false]
  dsimp only
  constructor
  · intro h
    by_cases hg : rd.geometry.isSome = true
    · exact hg
    · exfalso
      rw [if_neg hg] at h
      split at h
      · simp only [List.mem_append, List.mem_singleton] at h
        rcases h with (((((h | h) | h) | h) | h) | h)
        · simp at h
        · split at h <;> simp_all
        · exact not_mem_buildPhase_disposeGeometry _ h
        · split at h <;> simp_all
        · exact not_mem_materialPhase_disposeGeometry _ h
        · exact not_mem_tryCreateMesh_disposeGeometry _ h
      · simp only [List.mem_append, List.mem_singleton] at h
        rcases h with ((h | h) | h)
        · simp at h
        · split at h <;> simp_all
        · exact not_mem_buildPhase_disposeGeometry _ h
  · intro hg
    split <;> simp [List.mem_append, hg]

/-- The material path runs exactly when no material exists or the merged
color changed (within an update that does not throw). -/
lemma materialRebuilt_mem_update_iff (env : Env) (rd : RenderableData) (image : ImageMsg)
    (patch : SettingsPatch) (htruthy : image.formatTruthy = true) :
    Effect.materialRebuilt rd.topic ∈ (updateImageRenderable env rd image patch).effects ↔
      (rd.material = none ∨ (mergeSettings rd.settings patch).color ≠ rd.settings.color) := by
  unfold updateImageRenderable
  dsimp only
  rw [if_pos htruthy]
  constructor
  · intro h
    simp only [List.mem_append, List.mem_singleton] at h
    rcases h with (((((h | h) | h) | h) | h) | h)
    · simp at h
    · exact absurd h (not_mem_disposePhase_materialRebuilt _)
    · exact absurd h (not_mem_buildPhase_materialRebuilt _)
    · split at h <;> simp_all
    · by_cases hcond :
        ((geometryBuildPhase env (geometryDisposePhase
            { rd with settings := mergeSettings rd.settings patch }
            (decide ((mergeSettings rd.settings patch).cameraInfoTopic =
              rd.settings.cameraInfoTopic) &&
             decide ((mergeSettings rd.settings patch).distance =
              rd.settings.distance))).1 patch).1.material.isNone ||
          !decide ((mergeSettings rd.settings patch).color = rd.settings.color)) = true
      · rw [geometryBuildPhase_material, geometryDisposePhase_material] at hcond
        rcases Bool.or_eq_true_iff.mp hcond with h' | h'
        · left
          exact Option.isNone_iff_eq_none.mp h'
        · right
          simpa using h'
      · rw [materialPhase_cond_false _ _ _ (Bool.eq_false_iff.mpr hcond)] at h
        simp at h
    · exact absurd h (not_mem_tryCreateMesh_materialRebuilt _)
  · intro hcond
    have hc : ((geometryBuildPhase env (geometryDisposePhase
        { rd with settings := mergeSettings rd.settings patch }
        (decide ((mergeSettings rd.settings patch).cameraInfoTopic =
          rd.settings.cameraInfoTopic) &&
         decide ((mergeSettings rd.settings patch).distance =
          rd.settings.distance))).1 patch).1.material.isNone ||
        !decide ((mergeSettings rd.settings patch).color = rd.settings.color)) = true := by
      rw [geometryBuildPhase_material, geometryDisposePhase_material]
      rcases hcond with h | h
      · simp [h]
      · simp [h]
    rw [materialPhase_cond_true _ _ _ hc, rebuildMaterial_eq]
    simp [List.mem_append, geometryBuildPhase_topic, geometryDisposePhase_topic]

/-- The geometry-build step runs exactly when the PATCH names a defined
camera-info topic whose camera model is known, and the geometry slot is
empty at that point (always empty after a dispose; otherwise empty iff the
renderable had no geometry). -/
lemma geometryBuilt_mem_update_iff (env : Env) (rd : RenderableData) (image : ImageMsg)
    (patch : SettingsPatch) :
    Effect.geometryBuilt rd.topic ∈ (updateImageRenderable env rd image patch).effects ↔
      (((patch.cameraInfoTopic.getD none).bind env.camerasByTopic).isSome = true ∧
        (((mergeSettings rd.settings patch).cameraInfoTopic = rd.settings.cameraInfoTopic ∧
          (mergeSettings rd.settings patch).distance = rd.settings.distance) →
          rd.geometry = none)) := by
  unfold updateImageRenderable
  dsimp only
  by_cases hgeq : ((mergeSettings rd.settings patch).cameraInfoTopic =
      rd.settings.cameraInfoTopic ∧
      (mergeSettings rd.settings patch).distance = rd.settings.distance)
  · have hb : (decide ((mergeSettings rd.settings patch).cameraInfoTopic =
        rd.settings.cameraInfoTopic) &&
        decide ((mergeSettings rd.settings patch).distance = rd.settings.distance)) = true := by
      simp [hgeq.1, hgeq.2]
    rw [hb, geometryDisposePhase_true]
    dsimp only
    rcases hp : patch.cameraInfoTopic with _ | oc
    · rw [geometryBuildPhase_noCit env _ hp]
      dsimp only
      constructor
      · intro h
        exfalso
        split at h
        · simp only [List.mem_append, List.mem_singleton] at h
          rcases h with (((((h | h) | h) | h) | h) | h)
          · simp at h
          · simp at h
          · simp at h
          · split at h <;> simp_all
          · exact not_mem_materialPhase_geometryBuilt _ h
          · exact not_mem_tryCreateMesh_geometryBuilt _ h
        · simp only [List.mem_append, List.mem_singleton] at h
          rcases h with ((h | h) | h)
          · simp at h
          · simp at h
          · simp at h
      · rintro ⟨hc, -⟩
        simp at hc
    · rcases oc with _ | cit
      · rw [geometryBuildPhase_citUndefined env _ hp]
        dsimp only
        constructor
        · intro h
          exfalso
          split at h
          · simp only [List.mem_append, List.mem_singleton] at h
            rcases h with (((((h | h) | h) | h) | h) | h)
            · simp at h
            · simp at h
            · simp at h
            · split at h <;> simp_all
            · exact not_mem_materialPhase_geometryBuilt _ h
            · exact not_mem_tryCreateMesh_geometryBuilt _ h
          · simp only [List.mem_append, List.mem_singleton] at h
            rcases h with ((h | h) | h)
            · simp at h
            · simp at h
            · simp at h
        · rintro ⟨hc, -⟩
          simp at hc
      · rcases Option.eq_none_or_eq_some rd.geometry with hgeo | ⟨g, hgeo⟩
        · rcases hcam : env.camerasByTopic cit with _ | cam
          · rw [geometryBuildPhase_noCam env
              { rd with settings := mergeSettings rd.settings patch } hp hgeo hcam]
            dsimp only
            constructor
            · intro h
              exfalso
              split at h
              · simp only [List.mem_append, List.mem_singleton] at h
                rcases h with (((((h | h) | h) | h) | h) | h)
                · simp at h
                · simp at h
                · simp at h
                · split at h <;> simp_all
                · exact not_mem_materialPhase_geometryBuilt _ h
                · exact not_mem_tryCreateMesh_geometryBuilt _ h
              · simp only [List.mem_append, List.mem_singleton] at h
                rcases h with ((h | h) | h)
                · simp at h
                · simp at h
                · simp at h
            · rintro ⟨hc, -⟩
              simp [hcam] at hc
          · rw [geometryBuildPhase_build env
              { rd with settings := mergeSettings rd.settings patch } hp hgeo hcam]
            dsimp only
            constructor
            · intro _
              refine ⟨?_, fun _ => hgeo⟩
              simp [hcam]
            · intro _
              split <;> simp [List.mem_append]
        · rw [geometryBuildPhase_geomSome env
            { rd with settings := mergeSettings rd.settings patch } (by simp [hgeo])]
          dsimp only
          constructor
          · intro h
            exfalso
            split at h
            · simp only [List.mem_append, List.mem_singleton] at h
              rcases h with (((((h | h) | h) | h) | h) | h)
              · simp at h
              · simp at h
              · simp at h
              · split at h <;> simp_all
              · exact not_mem_materialPhase_geometryBuilt _ h
              · exact not_mem_tryCreateMesh_geometryBuilt _ h
            · simp only [List.mem_append, List.mem_singleton] at h
              rcases h with ((h | h) | h)
              · simp at h
              · simp at h
              · simp at h
          · rintro ⟨-, hn⟩
            rw [hn hgeq] at hgeo
            simp at hgeo
  · have hb : (decide ((mergeSettings rd.settings patch).cameraInfoTopic =
        rd.settings.cameraInfoTopic) &&
        decide ((mergeSettings rd.settings patch).distance = rd.settings.distance)) = false := by
      rcases not_and_or.mp hgeq with h | h <;> simp [h]
    rw [hb]
    have hg2 : (geometryDisposePhase
        { rd with settings := mergeSettings rd.settings patch } false).1.geometry = none := by
      rw [geometryDisposePhase_geometry]
      simp
    rcases hp : patch.cameraInfoTopic with _ | oc
    · rw [geometryBuildPhase_noCit env _ hp]
      dsimp only
      constructor
      · intro h
        exfalso
        split at h
        · simp only [List.mem_append, List.mem_singleton] at h
          rcases h with (((((h | h) | h) | h) | h) | h)
          · simp at h
          · exact not_mem_disposePhase_geometryBuilt _ h
          · simp at h
          · split at h <;> simp_all
          · exact not_mem_materialPhase_geometryBuilt _ h
          · exact not_mem_tryCreateMesh_geometryBuilt _ h
        · simp only [List.mem_append, List.mem_singleton] at h
          rcases h with ((h | h) | h)
          · simp at h
          · exact not_mem_disposePhase_geometryBuilt _ h
          · simp at h
      · rintro ⟨hc, -⟩
        simp at hc
    · rcases oc with _ | cit
      · rw [geometryBuildPhase_citUndefined env _ hp]
        dsimp only
        constructor
        · intro h
          exfalso
          split at h
          · simp only [List.mem_append, List.mem_singleton] at h
            rcases h with (((((h | h) | h) | h) | h) | h)
            · simp at h
            · exact not_mem_disposePhase_geometryBuilt _ h
            · simp at h
            · split at h <;> simp_all
            · exact not_mem_materialPhase_geometryBuilt _ h
            · exact not_mem_tryCreateMesh_geometryBuilt _ h
          · simp only [List.mem_append, List.mem_singleton] at h
            rcases h with ((h | h) | h)
            · simp at h
            · exact not_mem_disposePhase_geometryBuilt _ h
            · simp at h
        · rintro ⟨hc, -⟩
          simp at hc
      · rcases hcam : env.camerasByTopic cit with _ | cam
        · rw [geometryBuildPhase_noCam env _ hp hg2 hcam]
          dsimp only
          constructor
          · intro h
            exfalso
            split at h
            · simp only [List.mem_append, List.mem_singleton] at h
              rcases h with (((((h | h) | h) | h) | h) | h)
              · simp at h
              · exact not_mem_disposePhase_geometryBuilt _ h
              · simp at h
              · split at h <;> simp_all
              · exact not_mem_materialPhase_geometryBuilt _ h
              · exact not_mem_tryCreateMesh_geometryBuilt _ h
            · simp only [List.mem_append, List.mem_singleton] at h
              rcases h with ((h | h) | h)
              · simp at h
              · exact not_mem_disposePhase_geometryBuilt _ h
              · simp at h
          · rintro ⟨hc, -⟩
            simp [hcam] at hc
        · rw [geometryBuildPhase_build env _ hp hg2 hcam]
          dsimp only
          constructor
          · intro _
            refine ⟨?_, fun hg => absurd hg hgeq⟩
            simp [hcam]
          · intro _
            split <;> simp [List.mem_append, geometryDisposePhase_topic]

/-- When the patch names a camera-info topic with a known model and the
geometry slot is (or becomes) empty, the update stores geometry built at
the merged distance. -/
lemma update_builds_geometry (env : Env) (rd : RenderableData) (image : ImageMsg)
    (patch : SettingsPatch) {cit : String} {cam : CameraModel}
    (hp : patch.cameraInfoTopic = some (some cit)) (hcam : env.camerasByTopic cit = some cam)
    (hgeo : ((mergeSettings rd.settings patch).cameraInfoTopic = rd.settings.cameraInfoTopic ∧
      (mergeSettings rd.settings patch).distance = rd.settings.distance) →
      rd.geometry = none) :
    (updateImageRenderable env rd image patch).rd.geometry =
      some (createGeometry cam (mergeSettings rd.settings patch).distance) := by
  unfold updateImageRenderable
  dsimp only
  by_cases hgeq : ((mergeSettings rd.settings patch).cameraInfoTopic =
      rd.settings.cameraInfoTopic ∧
      (mergeSettings rd.settings patch).distance = rd.settings.distance)
  · have hb : (decide ((mergeSettings rd.settings patch).cameraInfoTopic =
        rd.settings.cameraInfoTopic) &&
        decide ((mergeSettings rd.settings patch).distance = rd.settings.distance)) = true := by
      simp [hgeq.1, hgeq.2]
    rw [hb, geometryDisposePhase_true]
    dsimp only
    rw [geometryBuildPhase_build env
      { rd with settings := mergeSettings rd.settings patch } hp (hgeo hgeq) hcam]
    dsimp only
    split
    · rw [tryCreateMesh_geometry, materialPhase_geometry]
    · rfl
  · have hb : (decide ((mergeSettings rd.settings patch).cameraInfoTopic =
        rd.settings.cameraInfoTopic) &&
        decide ((mergeSettings rd.settings patch).distance = rd.settings.distance)) = false := by
      rcases not_and_or.mp hgeq with h | h <;> simp [h]
    rw [hb]
    have hg2 : (geometryDisposePhase
        { rd with settings := mergeSettings rd.settings patch } false).1.geometry = none := by
      rw [geometryDisposePhase_geometry]
      simp
    rw [geometryBuildPhase_build env _ hp hg2 hcam]
    dsimp only
    split
    · rw [tryCreateMesh_geometry, materialPhase_geometry]
      dsimp only
      rw [geometryDisposePhase_settings]
    · dsimp only
      rw [geometryDisposePhase_settings]

/-! ## C4: rebuild triggers -/

/-- C4 counterexample: a renderable whose MERGED settings select
`cam/info` (auto-selected earlier), with no geometry and with the camera
model now available, receives a color-only settings patch — the merged
settings still select the camera-info topic, yet no geometry is built,
because the source gates the build on the PATCH argument's
`cameraInfoTopic`, which the color-only patch lacks. -/
theorem update_geometry_gated_on_patch_not_merged :
    ((lookupTopic stImgSel.imagesByTopic "cam/image").map
      (fun rd => (rd.settings.cameraInfoTopic, rd.geometry.isSome))) =
        some (some "cam/info", false) ∧
    (envWithCam.camerasByTopic "cam/info").isSome = true ∧
    ((lookupTopic (setTopicSettings envWithCam stImgSel "cam/image" colorPatch).st.imagesByTopic
        "cam/image").map (fun rd => (rd.settings.cameraInfoTopic, rd.geometry.isSome))) =
      some (some "cam/info", false) ∧
    Effect.geometryBuilt "cam/image" ∉
      (setTopicSettings envWithCam stImgSel "cam/image" colorPatch).effects := by
  refine ⟨by decide, ?_, by decide, by decide⟩
  simp [envWithCam]

/-- C4 as amended: within an update that does not throw, (1) the existing
geometry is disposed exactly when the merged settings change
`cameraInfoTopic` or `distance` (hence never on a color-only change);
(2) the material is rebuilt exactly when no material exists or the merged
color changed; (3) geometry is built exactly when the PATCH passed to the
update (not the merged settings) names a defined camera-info topic whose
camera model is available and the geometry slot is empty at that point;
and (4) in the build case the stored geometry is the one created at the
merged (configured) distance. -/
theorem update_rebuild_conditions (env : Env) (rd : RenderableData) (image : ImageMsg)
    (patch : SettingsPatch) (htruthy : image.formatTruthy = true) :
    (Effect.disposeGeometry rd.topic ∈ (updateImageRenderable env rd image patch).effects ↔
      (rd.geometry.isSome = true ∧
        ¬((mergeSettings rd.settings patch).cameraInfoTopic = rd.settings.cameraInfoTopic ∧
          (mergeSettings rd.settings patch).distance = rd.settings.distance))) ∧
    (Effect.materialRebuilt rd.topic ∈ (updateImageRenderable env rd image patch).effects ↔
      (rd.material = none ∨ (mergeSettings rd.settings patch).color ≠ rd.settings.color)) ∧
    (Effect.geometryBuilt rd.topic ∈ (updateImageRenderable env rd image patch).effects ↔
      (((patch.cameraInfoTopic.getD none).bind env.camerasByTopic).isSome = true ∧
        (((mergeSettings rd.settings patch).cameraInfoTopic = rd.settings.cameraInfoTopic ∧
          (mergeSettings rd.settings patch).distance = rd.settings.distance) →
          rd.geometry = none))) ∧
    (∀ cit cam, patch.cameraInfoTopic = some (some cit) →
      env.camerasByTopic cit = some cam →
      (((mergeSettings rd.settings patch).cameraInfoTopic = rd.settings.cameraInfoTopic ∧
        (mergeSettings rd.settings patch).distance = rd.settings.distance) →
        rd.geometry = none) →
      (updateImageRenderable env rd image patch).rd.geometry =
        some (createGeometry cam (mergeSettings rd.settings patch).distance)) := by
  refine ⟨?_, materialRebuilt_mem_update_iff env rd image patch htruthy,
    geometryBuilt_mem_update_iff env rd image patch, ?_⟩
  · constructor
    · intro h
      by_cases hgeq : ((mergeSettings rd.settings patch).cameraInfoTopic =
          rd.settings.cameraInfoTopic ∧
          (mergeSettings rd.settings patch).distance = rd.settings.distance)
      · exact absurd h (disposeGeometry_not_mem_update_of_geq env rd image patch _ hgeq)
      · exact ⟨(disposeGeometry_mem_update_of_ne env rd image patch hgeq).mp h, hgeq⟩
    · rintro ⟨hg, hgeq⟩
      exact (disposeGeometry_mem_update_of_ne env rd image patch hgeq).mpr hg
  · intro cit cam hp hcam hgeo
    exact update_builds_geometry env rd image patch hp hcam hgeo

/-- Witness for the amended C4: on the concrete renderable with an
auto-selected camera-info topic, a color-only patch rebuilds the material
but disposes no geometry, and a patch carrying the camera-info topic
builds geometry at the merged distance now that the model is available. -/
theorem update_rebuild_conditions_witness :
    Effect.materialRebuilt rdSel.topic ∈
      (updateImageRenderable envWithCam rdSel imgA colorPatch).effects ∧
    Effect.disposeGeometry rdSel.topic ∉
      (updateImageRenderable envWithCam rdSel imgA colorPatch).effects ∧
    (updateImageRenderable envWithCam rdSel imgA patchInfo).rd.geometry =
      some (createGeometry sampleCam (mergeSettings rdSel.settings patchInfo).distance) := by
  have h := update_rebuild_conditions envWithCam rdSel imgA colorPatch (by decide)
  have h2 := update_rebuild_conditions envWithCam rdSel imgA patchInfo (by decide)
  refine ⟨h.2.1.mpr (Or.inl (by decide)), ?_, ?_⟩
  · intro hmem
    exact absurd ((h.1.mp hmem).1) (by decide)
  · exact h2.2.2.2 "cam/info" sampleCam (by decide) (by simp [envWithCam]) (fun _ => by decide)

/-! ## C9: idempotence of `setTopicSettings` -/

/-- C9 (confirmed): calling `setTopicSettings` with the renderable's own
current settings disposes no geometry, disposes no material, detaches no
mesh, and preserves the stored material, texture, any existing geometry and
any existing mesh (both equality checks pass); and `setTopicSettings` is a
no-op when no renderable exists for the topic. The two invariant
hypotheses (a mesh implies geometry and material; a material exists exactly
when a texture does) hold for every renderable the manager creates. Note
the source may still ENTER the material path when no material exists at
all, where it rebuilds nothing (no texture → no new material, nothing
disposed), and it may attach a brand-new mesh when a camera model has
meanwhile become available — neither destroys or replaces an existing
resource. -/
theorem setTopicSettings_current_settings_noop (env : Env) (st : ImagesState)
    (topic : String) :
    (∀ rd, lookupTopic st.imagesByTopic topic = some rd →
      (rd.mesh.isSome = true → rd.geometry.isSome = true ∧ rd.material.isSome = true) →
      rd.material.isSome = rd.texture.isSome →
      (∀ t, Effect.disposeGeometry t ∉
        (setTopicSettings env st topic (toPatch rd.settings)).effects) ∧
      (∀ t, Effect.disposeMaterial t ∉
        (setTopicSettings env st topic (toPatch rd.settings)).effects) ∧
      (∀ t, Effect.detachMesh t ∉
        (setTopicSettings env st topic (toPatch rd.settings)).effects) ∧
      (∃ rd', lookupTopic (setTopicSettings env st topic
            (toPatch rd.settings)).st.imagesByTopic topic = some rd' ∧
        rd'.material = rd.material ∧ rd'.texture = rd.texture ∧
        (rd.geometry.isSome = true → rd'.geometry = rd.geometry) ∧
        (rd.mesh.isSome = true → rd'.mesh = rd.mesh))) ∧
    (lookupTopic st.imagesByTopic topic = none →
      ∀ patch, setTopicSettings env st topic patch = ⟨st, [], none⟩) := by
  constructor
  · intro rd hlook hmesh hmat
    have hset : setTopicSettings env st topic (toPatch rd.settings) =
        ⟨{ st with imagesByTopic := (setTopic st.imagesByTopic topic (updateImageRenderable env rd rd.image (toPatch rd.settings)).rd) },
         (updateImageRenderable env rd rd.image (toPatch rd.settings)).effects,
         (updateImageRenderable env rd rd.image (toPatch rd.settings)).thrown⟩ := by
      unfold setTopicSettings
      rw [hlook]
    rw [hset]
    refine ⟨?_, ?_, ?_, ?_⟩
    · intro t h
      exact (update_self_patch_effects hmesh hmat h).1 t rfl
    · intro t h
      exact (update_self_patch_effects hmesh hmat h).2.1 t rfl
    · intro t h
      exact (update_self_patch_effects hmesh hmat h).2.2 t rfl
    · refine ⟨(updateImageRenderable env rd rd.image (toPatch rd.settings)).rd,
        lookupTopic_setTopic_self _ _ _, ?_, ?_, ?_, ?_⟩
      · exact (update_self_patch_rd hmesh hmat).1
      · exact (update_self_patch_rd hmesh hmat).2.1
      · exact (update_self_patch_rd hmesh hmat).2.2.1
      · exact (update_self_patch_rd hmesh hmat).2.2.2
  · intro hlook patch
    unfold setTopicSettings
    rw [hlook]

/-- Witness for C9 at a concrete renderable and at a missing topic. -/
theorem setTopicSettings_current_settings_noop_witness :
    Effect.disposeGeometry "a/image" ∉
      (setTopicSettings sampleEnv stateWithImage "a/image"
        (toPatch ({ rdT with topic := "a/image" }).settings)).effects ∧
    setTopicSettings sampleEnv stateWithImage "missing/topic" emptyPatch =
      ⟨stateWithImage, [], none⟩ := by
  have h := setTopicSettings_current_settings_noop sampleEnv stateWithImage "a/image"
  have h2 := setTopicSettings_current_settings_noop sampleEnv stateWithImage "missing/topic"
  exact ⟨(h.1 { rdT with topic := "a/image" } (by decide) (by decide) (by decide)).1
      "a/image",
    h2.2 (by decide) emptyPatch⟩

/-! ## C6: auto-selection of the camera-info topic -/

/-- C6 (confirmed): auto-selection considers exactly the known camera-info
topics matching the image topic (equal segment counts after splitting on
`/`, all but the last segment equal) and returns the smallest candidate in
the JavaScript string order (lexicographic by code unit); when no candidate
matches, the selection comes back unset. -/
theorem autoSelect_picks_lex_min_matching (imageTopic : String) (infos : List String) :
    (∀ m, autoSelectCameraInfoTopic imageTopic infos = some m →
      m ∈ infos ∧ cameraInfoTopicMatches imageTopic m = true ∧
        ∀ c ∈ infos, cameraInfoTopicMatches imageTopic c = true → jsStringLe m c = true) ∧
    (autoSelectCameraInfoTopic imageTopic infos = none ↔
      ∀ c ∈ infos, cameraInfoTopicMatches imageTopic c = false) := by
  constructor
  · intro m hm
    simp only [autoSelectCameraInfoTopic] at hm
    obtain ⟨hmem, hmin⟩ := sortStrings_head_min hm
    have hmem' := List.mem_filter.mp hmem
    refine ⟨hmem'.1, hmem'.2, ?_⟩
    intro c hc hcm
    exact hmin c (List.mem_filter.mpr ⟨hc, hcm⟩)
  · simp only [autoSelectCameraInfoTopic, List.head?_eq_none_iff, sortStrings_eq_nil_iff,
      List.filter_eq_nil_iff]
    constructor
    · intro h c hc
      by_contra hc'
      exact h c hc (by simpa using hc')
    · intro h c hc
      simp [h c hc]

/-- Witness for C6 at the spec's own examples: among candidates
`{a/b/info2, a/b/info1}` the topic `a/b/info1` is selected, it matches,
it is minimal, and `a/image` does not match `b/camera_info`. -/
theorem autoSelect_picks_lex_min_matching_witness :
    autoSelectCameraInfoTopic "a/b/image" ["a/b/info2", "a/b/info1"] = some "a/b/info1" ∧
    "a/b/info1" ∈ ["a/b/info2", "a/b/info1"] ∧
    cameraInfoTopicMatches "a/b/image" "a/b/info1" = true ∧
    jsStringLe "a/b/info1" "a/b/info2" = true ∧
    cameraInfoTopicMatches "a/image" "b/camera_info" = false ∧
    autoSelectCameraInfoTopic "a/image" ["b/camera_info"] = none := by
  have h := autoSelect_picks_lex_min_matching "a/b/image" ["a/b/info2", "a/b/info1"]
  have h1 := h.1 "a/b/info1" (by decide)
  have h2 := (autoSelect_picks_lex_min_matching "a/image" ["b/camera_info"]).2.mpr (by decide)
  exact ⟨by decide, h1.1, h1.2.1, h1.2.2 "a/b/info2" (by decide) (by decide), by decide, h2⟩

/-! ## C2: the stored image message of an existing renderable -/

/-- C2 (code bug): a second `addImageMessage` on the same topic leaves the
renderable's stored image message and source timestamp at the values of the
FIRST message: `_updateImageRenderable` never writes `userData.image` or
`userData.srcTime`, which are only assigned when the renderable is created.
The stale message is consequential: `startFrame` reads the stored message's
`frame_id` for pose resolution and `addCameraInfoMessage` re-decodes the
stored message, so both keep using the superseded message. -/
theorem addImage_existing_renderable_keeps_first_message :
    (addImageMessage sampleEnv (addImageMessage sampleEnv st0 "cam/image" imgA).st
        "cam/image" imgB).thrown = none ∧
    imgB ≠ imgA ∧
    ((lookupTopic (addImageMessage sampleEnv (addImageMessage sampleEnv st0 "cam/image" imgA).st
          "cam/image" imgB).st.imagesByTopic "cam/image").map
        (fun rd => (rd.image, rd.srcTime))) =
      some (imgA, rosTimeToNanoSec imgA.header.stamp) ∧
    rosTimeToNanoSec imgB.header.stamp ≠ rosTimeToNanoSec imgA.header.stamp := by
  decide

/-! ## C1: reaction to a new camera-info topic -/

/-- C1 counterexample: `a/camera_info` matches the image topic `a/image`
(same segment count, equal namespace), a renderable for `a/image` exists
and holds a compressed image, the camera-info topic is new — yet
`addCameraInfoMessage` re-runs no renderable update at all (its only
effect is the settings-tree event): the source looks the renderable up
under the camera-info topic name itself instead of searching for matching
image topics. -/
theorem addCameraInfo_matching_renderable_not_refreshed :
    cameraInfoTopicMatches "a/image" "a/camera_info" = true ∧
    (lookupTopic stateWithImage.imagesByTopic "a/image").isSome = true ∧
    ("a/camera_info" ∈ stateWithImage.cameraInfoTopics) = False ∧
    (addCameraInfoMessage sampleEnv stateWithImage "a/camera_info").effects =
      [Effect.emitSettingsTree ["topics"]] := by
  refine ⟨by decide, by decide, ?_, by decide⟩
  simp only [eq_iff_iff, iff_false]
  decide

/-- C1 as amended: `addCameraInfoMessage(topic, info)` re-runs the update
only for the renderable stored under exactly `topic` (none otherwise —
matching image topics are NOT refreshed); when the update does not throw,
the `[topics]` settings-tree event is emitted exactly when `topic` was not
yet in the known camera-info set; when the topic was already known, no
settings-tree event of any path is emitted. -/
theorem addCameraInfo_updates_exact_topic_only (env : Env) (st : ImagesState) (topic : String) :
    (∀ t, Effect.updateRun t ∈ (addCameraInfoMessage env st topic).effects ↔
      ∃ rd, lookupTopic st.imagesByTopic topic = some rd ∧ rd.topic = t) ∧
    ((addCameraInfoMessage env st topic).thrown = none →
      (Effect.emitSettingsTree ["topics"] ∈ (addCameraInfoMessage env st topic).effects ↔
        topic ∉ st.cameraInfoTopics)) ∧
    (topic ∈ st.cameraInfoTopics →
      ∀ p, Effect.emitSettingsTree p ∉ (addCameraInfoMessage env st topic).effects) := by
  unfold addCameraInfoMessage
  dsimp only
  cases hlook : lookupTopic st.imagesByTopic topic with
  | none =>
    dsimp only
    refine ⟨?_, ?_, ?_⟩
    · intro t
      constructor
      · intro h
        split at h <;> simp_all
      · rintro ⟨rd, hrd, -⟩
        simp [hlook] at hrd
    · intro _
      by_cases hc : topic ∈ st.cameraInfoTopics
      · simp [hc]
      · simp [hc]
    · intro hc p
      simp [hc]
  | some rd =>
    dsimp only
    cases hth : (updateImageRenderable env rd rd.image (toPatch rd.settings)).thrown with
    | some e =>
      dsimp only
      refine ⟨?_, ?_, ?_⟩
      · intro t
        rw [updateRun_mem_update_iff]
        constructor
        · intro h; exact ⟨rd, rfl, h.symm⟩
        · rintro ⟨rd', hrd', ht⟩
          injection hrd' with hrd'
          subst hrd'
          exact ht.symm
      · intro hnone
        simp [hth] at hnone
      · intro _ p
        exact emit_not_mem_update env rd rd.image (toPatch rd.settings) p
    | none =>
      dsimp only
      refine ⟨?_, ?_, ?_⟩
      · intro t
        simp only [List.mem_append]
        constructor
        · intro h
          rcases h with h | h
          · exact ⟨rd, rfl, ((updateRun_mem_update_iff env rd rd.image (toPatch rd.settings) t).mp h).symm⟩
          · split at h <;> simp_all
        · rintro ⟨rd', hrd', ht⟩
          injection hrd' with hrd'
          subst hrd'
          exact Or.inl ((updateRun_mem_update_iff env rd rd.image (toPatch rd.settings) t).mpr ht.symm)
      · intro _
        by_cases hc : topic ∈ st.cameraInfoTopics
        · simp only [List.mem_append]
          simp [hc, emit_not_mem_update env rd rd.image (toPatch rd.settings) ["topics"]]
        · simp only [List.mem_append]
          simp [hc]
      · intro hc p
        simp only [List.mem_append]
        push_neg
        refine ⟨emit_not_mem_update env rd rd.image (toPatch rd.settings) p, ?_⟩
        simp [hc]

/-- Witness for the amended C1: with a renderable stored under topic `t`,
`addCameraInfoMessage` on `t` itself re-runs its update; and on a fresh
topic `a/camera_info` (no renderable under that exact name) the `[topics]`
event fires. -/
theorem addCameraInfo_updates_exact_topic_only_witness :
    Effect.updateRun "t" ∈ (addCameraInfoMessage sampleEnv stateImgAtT "t").effects ∧
    Effect.emitSettingsTree ["topics"] ∈
      (addCameraInfoMessage sampleEnv stateWithImage "a/camera_info").effects := by
  constructor
  · exact ((addCameraInfo_updates_exact_topic_only sampleEnv stateImgAtT "t").1 "t").mpr
      ⟨rdT, by decide, by decide⟩
  · exact ((addCameraInfo_updates_exact_topic_only sampleEnv stateWithImage
        "a/camera_info").2.1 (by decide)).mpr (by decide)

/-! ## C3: pose resolution during `startFrame` -/

/-- C3 counterexample: `startFrame` at frame time 42 resolves the pose of
the visible renderable on `a/image` passing 42 as BOTH the current time and
the source time, although the stored message timestamp is 1000000000 ns; the
claim's source time (the image message's timestamp) is never passed. -/
theorem startFrame_source_time_is_frame_time :
    ((lookupTopic stateWithImage.imagesByTopic "a/image").map (fun rd => rd.srcTime)) =
      some 1000000000 ∧
    (startFrame sampleEnv stateWithImage 42).2 =
      [Effect.resolveCall "map" "base" "cam" 42 42,
       Effect.errorAdd "a/image" MISSING_TRANSFORM "missing transform"] ∧
    (42 : ℕ) ≠ 1000000000 := by
  decide

/-- C3 as amended: for every visible renderable, `startFrame(currentTime)`
resolves the pose using the stored image's declared source frame and
`currentTime` as BOTH the time and the source time (the stored message
timestamp is not consulted); when resolution fails, a missing-transform
error keyed to the renderable's topic is reported and the renderable keeps
its previous pose (the failure is non-fatal). -/
theorem startFrame_resolves_with_frame_time (env : Env) (st : ImagesState)
    (currentTime : ℕ) (rf ff : String)
    (hrf : env.renderFrameId = some rf) (hff : env.fixedFrameId = some ff)
    (topic : String) (rd : RenderableData)
    (hmem : (topic, rd) ∈ st.imagesByTopic) (hvis : rd.settings.visible = true) :
    Effect.resolveCall rf ff rd.image.header.frame_id currentTime currentTime ∈
      (startFrame env st currentTime).2 ∧
    (env.resolvePose rf ff rd.image.header.frame_id currentTime currentTime = none →
      Effect.errorAdd rd.topic MISSING_TRANSFORM
          (env.missingTransformMessage rf ff rd.image.header.frame_id) ∈
        (startFrame env st currentTime).2 ∧
      (topic, { rd with visible := true }) ∈ (startFrame env st currentTime).1.imagesByTopic) := by
  unfold startFrame
  rw [hrf, hff]
  dsimp only
  constructor
  · apply List.mem_flatMap.mpr
    refine ⟨(topic, startFrameRenderable env rf ff currentTime rd),
      List.mem_map.mpr ⟨(topic, rd), hmem, rfl⟩, ?_⟩
    unfold startFrameRenderable
    simp only [hvis]
    cases hres : env.resolvePose rf ff rd.image.header.frame_id currentTime currentTime <;>
      simp [hres]
  · intro hres
    constructor
    · apply List.mem_flatMap.mpr
      refine ⟨(topic, startFrameRenderable env rf ff currentTime rd),
        List.mem_map.mpr ⟨(topic, rd), hmem, rfl⟩, ?_⟩
      unfold startFrameRenderable
      simp [hvis, hres]
    · apply List.mem_map.mpr
      refine ⟨(topic, startFrameRenderable env rf ff currentTime rd),
        List.mem_map.mpr ⟨(topic, rd), hmem, rfl⟩, ?_⟩
      unfold startFrameRenderable
      simp [hvis, hres]

/-- Witness for the amended C3 at a concrete state: the resolver is invoked
with frame time 42 as the source time, resolution fails, the error is
reported, and the renderable survives with its pose intact. -/
theorem startFrame_resolves_with_frame_time_witness :
    Effect.resolveCall "map" "base" "cam" 42 42 ∈ (startFrame sampleEnv stateWithImage 42).2 ∧
    Effect.errorAdd "a/image" MISSING_TRANSFORM "missing transform" ∈
      (startFrame sampleEnv stateWithImage 42).2 ∧
    ("a/image", { rdT with topic := "a/image", visible := true }) ∈
      (startFrame sampleEnv stateWithImage 42).1.imagesByTopic := by
  have h := startFrame_resolves_with_frame_time sampleEnv stateWithImage 42 "map" "base"
    (by decide) (by decide) "a/image" { rdT with topic := "a/image" } (by decide) (by decide)
  have h2 := h.2 (by decide)
  exact ⟨h.1, h2.1, h2.2⟩

/-! ## C8: raw images fail loudly -/

/-- In the throwing branch of `_updateImageRenderable` only the marker and
the two geometry phases contribute effects. -/
lemma mem_update_effects_thrown {env : Env} {rd0 : RenderableData} {image : ImageMsg}
    {patch : SettingsPatch} {e : Effect} (hfmt : image.formatTruthy = false)
    (h : e ∈ (updateImageRenderable env rd0 image patch).effects) :
    e = Effect.updateRun rd0.topic ∨ e = Effect.disposeGeometry rd0.topic ∨
      e = Effect.detachMesh rd0.topic ∨ e = Effect.geometryBuilt rd0.topic := by
  unfold updateImageRenderable at h
  dsimp only at h
  rw [hfmt] at h
  simp only [Bool.false_eq_true, if_false, List.mem_append, List.mem_singleton] at h
  rcases h with (h | h) | h
  · left; exact h
  · rcases mem_geometryDisposePhase h with h | h
    · right; left; exact h
    · right; right; left; exact h
  · rcases mem_geometryBuildPhase h with h | h
    · rw [geometryDisposePhase_topic] at h
      right; right; right; exact h
    · rw [geometryDisposePhase_topic] at h
      right; right; left; exact h

/-- C8 (confirmed): an update whose image is a raw (uncompressed) message
throws (the `Unhandled ... image` error) instead of silently doing nothing,
and within that update no decode is dispatched, no material rebuild runs,
and no mesh is constructed. -/
theorem update_raw_image_throws (env : Env) (rd : RenderableData) (patch : SettingsPatch)
    (header : Header) (width height : ℕ) (encoding : String) (data : List ℕ) :
    (updateImageRenderable env rd (ImageMsg.raw header width height encoding data) patch).thrown =
      some ("Unhandled " ++ toString width ++ "x" ++ toString height ++ " " ++
        encoding ++ " image") ∧
    (∀ t f d, Effect.decodeDispatch t f d ∉
      (updateImageRenderable env rd (ImageMsg.raw header width height encoding data) patch).effects) ∧
    (∀ t, Effect.materialRebuilt t ∉
      (updateImageRenderable env rd (ImageMsg.raw header width height encoding data) patch).effects) ∧
    (∀ t, Effect.attachMesh t ∉
      (updateImageRenderable env rd (ImageMsg.raw header width height encoding data) patch).effects) := by
  have hfmt : (ImageMsg.raw header width height encoding data).formatTruthy = false := rfl
  refine ⟨?_, ?_, ?_, ?_⟩
  · unfold updateImageRenderable
    dsimp only
    rw [hfmt]
    simp [unhandledImageMessage]
  · intro t f d h
    rcases mem_update_effects_thrown hfmt h with h | h | h | h <;> simp_all
  · intro t h
    rcases mem_update_effects_thrown hfmt h with h | h | h | h <;> simp_all
  · intro t h
    rcases mem_update_effects_thrown hfmt h with h | h | h | h <;> simp_all

/-! ## C5: a decode completing after `dispose()` -/

/-- C5 counterexample: after `dispose()` has removed every renderable and
stripped their resources, a decode completing for the stale `a/image`
renderable DOES re-create a texture and a material on it (the callback
tests only `texture == undefined`, which `dispose()` reset), contradicting
the claim that no texture or material is re-created. -/
theorem decode_after_dispose_recreates_resources :
    (dispose stateDecoded).1.imagesByTopic = [] ∧
    (dispose stateDecoded).1.childTopics = [] ∧
    staleRd.texture = none ∧ staleRd.material = none ∧
    ((decodeCallbackBody sampleEnv "a/image" staleRd (Except.ok ⟨4, 3⟩)).1.texture).isSome
      = true ∧
    ((decodeCallbackBody sampleEnv "a/image" staleRd (Except.ok ⟨4, 3⟩)).1.material).isSome
      = true := by
  decide

/-- C5 as amended: a decode completing for a renderable that `dispose()`
stripped (texture, material, geometry and mesh all reset) re-creates a
texture and a material on the stale object and clears the per-topic decode
error, but constructs no geometry and no mesh, and attaches nothing: the
callback's only state access is through the closed-over renderable object,
so the manager's topic map and children (emptied by `dispose()`) are left
untouched — the resources are created onto an orphaned object. -/
theorem decode_after_dispose_stale_object (env : Env) (topic : String)
    (rd : RenderableData) (bitmap : Bitmap)
    (ht : rd.texture = none) (hm : rd.material = none)
    (hg : rd.geometry = none) (hme : rd.mesh = none) :
    (decodeCallbackBody env topic rd (Except.ok bitmap)).1.texture =
      some (mkCanvasTexture bitmap) ∧
    (decodeCallbackBody env topic rd (Except.ok bitmap)).1.material =
      some (createMaterial env (mkCanvasTexture bitmap)
        { rd with texture := some (mkCanvasTexture bitmap) }) ∧
    (decodeCallbackBody env topic rd (Except.ok bitmap)).1.geometry = none ∧
    (decodeCallbackBody env topic rd (Except.ok bitmap)).1.mesh = none ∧
    (decodeCallbackBody env topic rd (Except.ok bitmap)).2 =
      [Effect.createTextureEff topic, Effect.materialRebuilt rd.topic,
       Effect.errorRemove topic CREATE_BITMAP_ERR] := by
  unfold decodeCallbackBody
  rw [ht]
  unfold rebuildMaterial tryCreateMesh
  simp [hm, hg, hme]

/-- Witness for the amended C5 at the concrete post-`dispose()` renderable. -/
theorem decode_after_dispose_stale_object_witness :
    (decodeCallbackBody sampleEnv "a/image" staleRd (Except.ok ⟨4, 3⟩)).1.texture =
      some (mkCanvasTexture ⟨4, 3⟩) ∧
    (decodeCallbackBody sampleEnv "a/image" staleRd (Except.ok ⟨4, 3⟩)).1.mesh = none ∧
    (decodeCallbackBody sampleEnv "a/image" staleRd (Except.ok ⟨4, 3⟩)).2 =
      [Effect.createTextureEff "a/image", Effect.materialRebuilt "a/image",
       Effect.errorRemove "a/image" CREATE_BITMAP_ERR] := by
  have h := decode_after_dispose_stale_object sampleEnv "a/image" staleRd ⟨4, 3⟩
    (by decide) (by decide) (by decide) (by decide)
  exact ⟨h.1, h.2.2.2.1, h.2.2.2.2⟩

/-! ## C7: the mesh invariant -/

lemma tryCreateMesh_invariant (rd : RenderableData)
    (h : rd.mesh.isSome = true → rd.geometry.isSome = true ∧ rd.material.isSome = true) :
    meshInvariant (tryCreateMesh rd).1 := by
  rcases hme : rd.mesh with _ | m
  · rcases hg : rd.geometry with _ | g
    · rw [tryCreateMesh_noGeom rd hg]
      unfold meshInvariant
      simp [hme, hg]
    · rcases hma : rd.material with _ | mm
      · rw [tryCreateMesh_noMat rd hma]
        unfold meshInvariant
        simp [hme, hma]
      · rw [tryCreateMesh_create rd hme hg hma]
        unfold meshInvariant
        simp [hg, hma]
  · obtain ⟨h1, h2⟩ := h (by simp [hme])
    rw [tryCreateMesh_meshSome rd (by simp [hme])]
    unfold meshInvariant
    simp [hme, h1, h2]

lemma geometryDisposePhase_mesh_some {rd : RenderableData} {geq : Bool}
    (h : (geometryDisposePhase rd geq).1.mesh.isSome = true) :
    (geometryDisposePhase rd geq).1 = rd := by
  cases geq
  · exfalso
    rw [geometryDisposePhase_false] at h
    simp at h
  · rw [geometryDisposePhase_true]

lemma geometryBuildPhase_mesh_some {env : Env} {rd : RenderableData} {patch : SettingsPatch}
    (h : (geometryBuildPhase env rd patch).1.mesh.isSome = true) :
    (geometryBuildPhase env rd patch).1 = rd := by
  rcases hp : patch.cameraInfoTopic with _ | oc
  · rw [geometryBuildPhase_noCit env rd hp]
  · rcases oc with _ | cit
    · rw [geometryBuildPhase_citUndefined env rd hp]
    · rcases Option.eq_none_or_eq_some rd.geometry with hg | ⟨g, hg⟩
      · rcases hcam : env.camerasByTopic cit with _ | cam
        · rw [geometryBuildPhase_noCam env rd hp hg hcam]
        · exfalso
          rw [geometryBuildPhase_build env rd hp hg hcam] at h
          simp at h
      · rw [geometryBuildPhase_geomSome env rd (by simp [hg])]

/-- A non-throwing `_updateImageRenderable` preserves the mesh invariant of
the renderable it updates. -/
lemma update_preserves_meshInvariant (env : Env) (rd : RenderableData) (image : ImageMsg)
    (patch : SettingsPatch) (hinv : meshInvariant rd) (hok : image.formatTruthy = true) :
    meshInvariant (updateImageRenderable env rd image patch).rd := by
  unfold updateImageRenderable
  dsimp only
  rw [if_pos hok]
  dsimp only
  generalize hgq : (decide ((mergeSettings rd.settings patch).cameraInfoTopic =
      rd.settings.cameraInfoTopic) &&
      decide ((mergeSettings rd.settings patch).distance = rd.settings.distance)) = geqB
  generalize hmq : decide ((mergeSettings rd.settings patch).color = rd.settings.color) = meqB
  generalize hrd1 : ({ rd with settings := mergeSettings rd.settings patch } :
      RenderableData) = rd1
  have hinv1 : meshInvariant rd1 := by
    rw [← hrd1]
    exact hinv
  apply tryCreateMesh_invariant
  intro hm
  by_cases hcond : ((geometryBuildPhase env (geometryDisposePhase rd1 geqB).1
      patch).1.material.isNone || !meqB) = true
  · exfalso
    rw [materialPhase_cond_true _ _ _ hcond, rebuildMaterial_eq] at hm
    simp at hm
  · rw [materialPhase_cond_false _ _ _ (Bool.eq_false_iff.mpr hcond)] at hm ⊢
    have hB := geometryBuildPhase_mesh_some hm
    rw [hB] at hm ⊢
    have hD := geometryDisposePhase_mesh_some hm
    rw [hD] at hm ⊢
    exact hinv1.mp hm

lemma decodeCallback_preserves_meshInvariant (env : Env) (topic : String)
    (rd : RenderableData) (outcome : Except String Bitmap) (hinv : meshInvariant rd) :
    meshInvariant (decodeCallbackBody env topic rd outcome).1 := by
  unfold decodeCallbackBody
  rcases outcome with err | bitmap
  · exact hinv
  · dsimp only
    split
    · apply tryCreateMesh_invariant
      intro hm
      rw [rebuildMaterial_eq] at hm
      simp at hm
    · exact hinv

lemma startFrameRenderable_preserves_meshInvariant (env : Env) (rf ff : String) (t : ℕ)
    (rd : RenderableData) (hinv : meshInvariant rd) :
    meshInvariant (startFrameRenderable env rf ff t rd).1 := by
  unfold startFrameRenderable
  dsimp only
  split
  · exact hinv
  · split
    · exact hinv
    · exact hinv

lemma meshInvariant_of_mem_setTopic {m : List (String × RenderableData)} {t : String}
    {v : RenderableData} {kv : String × RenderableData}
    (hm : ∀ kv' ∈ m, meshInvariant kv'.2) (hv : meshInvariant v)
    (hkv : kv ∈ setTopic m t v) : meshInvariant kv.2 := by
  rcases mem_setTopic hkv with rfl | h
  · exact hv
  · exact hm _ h

lemma addImageMessage_thrown (env : Env) (st : ImagesState) (topic : String)
    (image : ImageMsg) :
    (addImageMessage env st topic image).thrown = none ↔ image.formatTruthy = true := by
  unfold addImageMessage
  dsimp only
  repeat' split
  all_goals exact update_thrown_none_iff env _ image _

lemma addImageMessage_preserves_meshInvariant (env : Env) (st : ImagesState)
    (topic : String) (image : ImageMsg) (hinv : stateMeshInvariant st)
    (hok : (addImageMessage env st topic image).thrown = none) :
    stateMeshInvariant (addImageMessage env st topic image).st := by
  have htr : image.formatTruthy = true := (addImageMessage_thrown env st topic image).mp hok
  have hnone : ∀ x : RenderableData, x.mesh = none → x.geometry = none → x.material = none →
      meshInvariant x := by
    intro x h1 h2 h3
    simp [meshInvariant, h1, h2, h3]
  unfold addImageMessage
  dsimp only
  rcases hlook : lookupTopic st.imagesByTopic topic with _ | rd
  · dsimp only
    split
    · split
      · dsimp only
        intro kv hkv
        refine meshInvariant_of_mem_setTopic
          (fun kv1 h1 => meshInvariant_of_mem_setTopic
            (fun kv2 h2 => meshInvariant_of_mem_setTopic hinv (hnone _ rfl rfl rfl) h2)
            (hnone _ rfl rfl rfl) h1)
          (update_preserves_meshInvariant env _ image _ (hnone _ rfl rfl rfl) htr) hkv
      · dsimp only
        intro kv hkv
        refine meshInvariant_of_mem_setTopic
          (fun kv1 h1 => meshInvariant_of_mem_setTopic
            (fun kv2 h2 => meshInvariant_of_mem_setTopic hinv (hnone _ rfl rfl rfl) h2)
            (hnone _ rfl rfl rfl) h1)
          (update_preserves_meshInvariant env _ image _ (hnone _ rfl rfl rfl) htr) hkv
    · dsimp only
      intro kv hkv
      refine meshInvariant_of_mem_setTopic
        (fun kv1 h1 => meshInvariant_of_mem_setTopic hinv (hnone _ rfl rfl rfl) h1)
        (update_preserves_meshInvariant env _ image _ (hnone _ rfl rfl rfl) htr) hkv
  · dsimp only
    have hrd : meshInvariant rd := hinv _ (lookupTopic_mem hlook)
    split
    · split
      · dsimp only
        intro kv hkv
        refine meshInvariant_of_mem_setTopic ?_ ?_ hkv
        · intro kv1 h1
          refine meshInvariant_of_mem_setTopic hinv ?_ h1
          exact hrd
        · exact update_preserves_meshInvariant env _ image _ hrd htr
      · dsimp only
        intro kv hkv
        refine meshInvariant_of_mem_setTopic ?_ ?_ hkv
        · intro kv1 h1
          refine meshInvariant_of_mem_setTopic hinv ?_ h1
          exact hrd
        · exact update_preserves_meshInvariant env _ image _ hrd htr
    · dsimp only
      intro kv hkv
      refine meshInvariant_of_mem_setTopic hinv
        (update_preserves_meshInvariant env _ image _ hrd htr) hkv

lemma addCameraInfoMessage_preserves_meshInvariant (env : Env) (st : ImagesState)
    (topic : String) (hinv : stateMeshInvariant st)
    (hok : (addCameraInfoMessage env st topic).thrown = none) :
    stateMeshInvariant (addCameraInfoMessage env st topic).st := by
  unfold addCameraInfoMessage at hok ⊢
  dsimp only at hok ⊢
  rcases hlook : lookupTopic st.imagesByTopic topic with _ | rd
  all_goals rw [hlook] at hok
  all_goals dsimp only at hok ⊢
  · exact hinv
  · have hrd : meshInvariant rd := hinv _ (lookupTopic_mem hlook)
    rcases hth : (updateImageRenderable env rd rd.image (toPatch rd.settings)).thrown with _ | e
    all_goals rw [hth] at hok
    all_goals dsimp only at hok ⊢
    · intro kv hkv
      refine meshInvariant_of_mem_setTopic hinv ?_ hkv
      exact update_preserves_meshInvariant env _ _ _ hrd
        ((update_thrown_none_iff env _ _ _).mp hth)
    · simp at hok

lemma setTopicSettings_preserves_meshInvariant (env : Env) (st : ImagesState)
    (topic : String) (patch : SettingsPatch) (hinv : stateMeshInvariant st)
    (hok : (setTopicSettings env st topic patch).thrown = none) :
    stateMeshInvariant (setTopicSettings env st topic patch).st := by
  unfold setTopicSettings at hok ⊢
  rcases hlook : lookupTopic st.imagesByTopic topic with _ | rd
  all_goals rw [hlook] at hok
  all_goals dsimp only at hok ⊢
  · exact hinv
  · intro kv hkv
    refine meshInvariant_of_mem_setTopic hinv ?_ hkv
    exact update_preserves_meshInvariant env _ _ _ (hinv _ (lookupTopic_mem hlook))
      ((update_thrown_none_iff env _ _ _).mp hok)

lemma startFrame_preserves_meshInvariant (env : Env) (st : ImagesState) (t : ℕ)
    (hinv : stateMeshInvariant st) : stateMeshInvariant (startFrame env st t).1 := by
  unfold startFrame
  rcases hrf : env.renderFrameId with _ | rf
  · dsimp only
    exact hinv
  · rcases hff : env.fixedFrameId with _ | ff
    · dsimp only
      exact hinv
    · dsimp only
      intro kv hkv
      simp only [List.mem_map] at hkv
      obtain ⟨kv1, hkv1, rfl⟩ := hkv
      obtain ⟨kv0, hkv0, rfl⟩ := hkv1
      exact startFrameRenderable_preserves_meshInvariant env rf ff t _ (hinv _ hkv0)

lemma dispose_meshInvariant (st : ImagesState) : stateMeshInvariant (dispose st).1 := by
  intro kv hkv
  simp [dispose] at hkv

lemma runDecodeLive_preserves_meshInvariant (env : Env) (st : ImagesState) (topic : String)
    (outcome : Except String Bitmap) (hinv : stateMeshInvariant st) :
    stateMeshInvariant (runDecodeLive env st topic outcome).1 := by
  unfold runDecodeLive
  rcases hlook : lookupTopic st.imagesByTopic topic with _ | rd
  all_goals dsimp only
  · exact hinv
  · intro kv hkv
    refine meshInvariant_of_mem_setTopic hinv ?_ hkv
    exact decodeCallback_preserves_meshInvariant env topic rd outcome
      (hinv _ (lookupTopic_mem hlook))

/-- C7 counterexample: a trace in which an update aborted by the
raw-encoding throw leaves a renderable with geometry and material present
but no mesh at the end of the public operation `addImageMessage` — the
mesh-present-iff-geometry-and-material invariant does NOT hold at the end
of every public operation. (The camera model became available between
step 3 and the final call, so the throwing update first builds geometry,
then throws before `tryCreateMesh` can run.) -/
theorem mesh_invariant_broken_by_thrown_update :
    (addImageMessage envWithCam stC7c "cam/image" imgRaw).thrown.isSome = true ∧
    ((lookupTopic (addImageMessage envWithCam stC7c "cam/image" imgRaw).st.imagesByTopic
        "cam/image").map
      (fun rd => (rd.geometry.isSome, rd.material.isSome, rd.mesh.isSome))) =
      some (true, true, false) := by
  decide

/-- C7 as amended: the invariant "a mesh is present iff both geometry and
material are present" holds for every renderable at the end of every
public operation that does not throw (and across decode completions), with
the empty and disposed states satisfying it trivially; an update aborted
by the raw-encoding throw is the one exception (see the counterexample).
Moreover, whenever the material is rebuilt the mesh reference is cleared
(and an existing mesh detached), and whenever the geometry-affecting
settings changed an existing mesh is detached. -/
theorem mesh_invariant_preserved (env : Env) :
    (∀ st topic image, stateMeshInvariant st →
      (addImageMessage env st topic image).thrown = none →
      stateMeshInvariant (addImageMessage env st topic image).st) ∧
    (∀ st topic, stateMeshInvariant st →
      (addCameraInfoMessage env st topic).thrown = none →
      stateMeshInvariant (addCameraInfoMessage env st topic).st) ∧
    (∀ st topic patch, stateMeshInvariant st →
      (setTopicSettings env st topic patch).thrown = none →
      stateMeshInvariant (setTopicSettings env st topic patch).st) ∧
    (∀ st t, stateMeshInvariant st → stateMeshInvariant (startFrame env st t).1) ∧
    (∀ st, stateMeshInvariant (dispose st).1) ∧
    (∀ st topic outcome, stateMeshInvariant st →
      stateMeshInvariant (runDecodeLive env st topic outcome).1) ∧
    (∀ rd, (rebuildMaterial env rd).1.mesh = none ∧
      (rd.mesh.isSome = true →
        Effect.detachMesh rd.topic ∈ (rebuildMaterial env rd).2)) ∧
    (∀ rd image patch, rd.mesh.isSome = true →
      ¬((mergeSettings rd.settings patch).cameraInfoTopic = rd.settings.cameraInfoTopic ∧
        (mergeSettings rd.settings patch).distance = rd.settings.distance) →
      Effect.detachMesh rd.topic ∈ (updateImageRenderable env rd image patch).effects) := by
  refine ⟨addImageMessage_preserves_meshInvariant env,
    addCameraInfoMessage_preserves_meshInvariant env,
    setTopicSettings_preserves_meshInvariant env,
    startFrame_preserves_meshInvariant env,
    dispose_meshInvariant,
    runDecodeLive_preserves_meshInvariant env, ?_, ?_⟩
  · intro rd
    rw [rebuildMaterial_eq]
    exact ⟨rfl, fun hm => by simp [hm]⟩
  · intro rd image patch hmesh hgeq
    have hb : (decide ((mergeSettings rd.settings patch).cameraInfoTopic =
        rd.settings.cameraInfoTopic) &&
        decide ((mergeSettings rd.settings patch).distance = rd.settings.distance)) = false := by
      rcases not_and_or.mp hgeq with h | h <;> simp [h]
    unfold updateImageRenderable
    dsimp only
    rw [hb, geometryDisposePhase_false]
    dsimp only
    split <;> simp [List.mem_append, hmesh]

/-- Witness for the amended C7: the invariant holds after the first image
message on the empty state, and after a `dispose()`. -/
theorem mesh_invariant_preserved_witness :
    stateMeshInvariant (addImageMessage sampleEnv st0 "cam/image" imgA).st ∧
    stateMeshInvariant (dispose stateDecoded).1 := by
  have h := mesh_invariant_preserved sampleEnv
  refine ⟨h.1 st0 "cam/image" imgA ?_ (by decide), h.2.2.2.2.1 stateDecoded⟩
  intro kv hkv
  simp [st0] at hkv

/-! ## C10: the geometry builder -/

/-- C10 (confirmed): `createGeometry` produces a single quad. The four
vertex positions come from the corner pixels `(0,0)`, `(width,0)`,
`(0,height)`, `(width,height)`: each is rectified, projected to a 3D ray,
scaled by the distance, and its z coordinate lowered by the fixed
`EPS = 1e-3`. The four uv coordinates are exactly the corners of
`[0,1] × [0,1]`, with pixel row 0 mapped to `v = 0` (not vertically
flipped). Determinism and purity hold by construction: `createGeometry` is
a Lean function of the camera model and the distance alone. -/
theorem createGeometry_single_quad (cameraModel : CameraModel) (depth : ℚ) :
    (createGeometry cameraModel depth).vertices =
      [(0, 0), ((cameraModel.width : ℚ), 0), (0, (cameraModel.height : ℚ)),
        ((cameraModel.width : ℚ), (cameraModel.height : ℚ))].map
        (fun q =>
          let ray := cameraModel.projectPixelTo3dRay (cameraModel.rectifyPixel ⟨q.1, q.2⟩)
          ({ x := ray.x * depth, y := ray.y * depth, z := ray.z * depth - EPS } : Point3)) ∧
    (createGeometry cameraModel depth).uvs = [(0, 0), (1, 0), (0, 1), (1, 1)] := by
  constructor
  · simp only [createGeometry, multiplyScalar, List.map]
    norm_num [List.range_succ]
  · simp only [createGeometry]
    norm_num [List.range_succ]

end StudioImages
